import Mathlib

/-!
# Recipe backend: request handlers and authentication middleware

A shallow embedding of

* `src/middleware/authentication.js` (`authenticationMiddleware`),
* `src/controllers/recipe_controller.js` (`fetchAiRecipe`, `createAiRecipe`,
  `createManualRecipe`, `getRecipe`, `updateRecipe`, `deleteRecipe`),
* `src/controllers/aiRecipe_controller.js` (`fetchApiRecipe`).

JavaScript values are an explicit datatype, a thrown exception is an explicit
outcome, and every call that leaves the process (HTTP fetch, asset storage,
file system, document store) is answered by an oracle of the environment and
recorded in a trace of events.
-/

namespace RecipeBackend

/-! ## JavaScript values -/

/-- A JavaScript value as it can arrive in a parsed JSON body, plus `undefined`.
Numbers are integers here: no handler computes with a number other than a
`length`. -/
inductive JsVal where
  | undefined : JsVal
  | null : JsVal
  | bool (b : Bool) : JsVal
  | num (n : Int) : JsVal
  | str (s : String) : JsVal
  | arr (xs : List JsVal) : JsVal
  | obj (ps : List (String × JsVal)) : JsVal

/-- The own enumerable properties of a plain object, in insertion order. -/
abbrev Obj := List (String × JsVal)

/-- A thrown JavaScript error. `BadRequestError` and `UnauthenticatedError` are the
classes of `../errors`; `library` is an error object raised by a dependency
(jsonwebtoken, the HTTP client, the asset store, the document store), with its
`name`, `message` and the `userMessage` property a handler may attach. The text of
a `TypeError` is the engine's and carries no meaning here. -/
inductive JsError where
  | BadRequestError (message : String) : JsError
  | UnauthenticatedError (message : String) : JsError
  | TypeError (message : String) : JsError
  | library (name message : String) (userMessage : Option String) : JsError

/-- The `message` property of an error object. -/
def JsError.message : JsError → String
  | .BadRequestError m => m
  | .UnauthenticatedError m => m
  | .TypeError m => m
  | .library _ m _ => m

/-- Property lookup `o[k]` on a property list: the first entry with key `k`. -/
def getObj : Obj → String → JsVal
  | [], _ => .undefined
  | (k', v) :: rest, k => if k' = k then v else getObj rest k

/-- The operator `k in o` on a plain object. -/
def hasKey : Obj → String → Bool
  | [], _ => false
  | (k', _) :: rest, k => if k' = k then true else hasKey rest k

/-- Assignment `o[k] = v`: an existing property keeps its place, a new one is
appended. -/
def setObj : Obj → String → JsVal → Obj
  | [], k, v => [(k, v)]
  | (k', v') :: rest, k, v =>
    if k' = k then (k, v) :: rest else (k', v') :: setObj rest k v

/-- The statement `delete o[k]`. -/
def deleteObj : Obj → String → Obj
  | [], _ => []
  | (k', v') :: rest, k =>
    if k' = k then deleteObj rest k else (k', v') :: deleteObj rest k

/-- `Object.assign(target, source)` on plain objects. -/
def objectAssign (target : Obj) : Obj → Obj
  | [] => target
  | (k, v) :: rest => objectAssign (setObj target k v) rest

/-- Keys `"i"`, `"i+1"`, ... paired with the elements of a list: the indexed
properties of an array. -/
def indexed : Nat → List JsVal → Obj
  | _, [] => []
  | i, v :: rest => (toString i, v) :: indexed (i + 1) rest

/-- Object spread `{ ...v }`: the own enumerable properties of `v`. A string
spreads to its characters, `undefined`, `null`, numbers and booleans to nothing. -/
def spread : JsVal → Obj
  | .obj ps => ps
  | .arr xs => indexed 0 xs
  | .str s => indexed 0 (s.toList.map fun c => JsVal.str (String.singleton c))
  | _ => []

/-- Member access `v.k` for a key `k` that is neither an index nor a method name:
the builtin `length` of arrays and strings, the own property of a plain object,
`undefined` on numbers and booleans. Reading a property of `undefined` or `null`
throws a `TypeError`. -/
def member (v : JsVal) (k : String) : Except JsError JsVal :=
  match v with
  | .undefined => .error (.TypeError ("Cannot read properties of undefined (reading " ++ k ++ ")"))
  | .null => .error (.TypeError ("Cannot read properties of null (reading " ++ k ++ ")"))
  | .obj ps => .ok (getObj ps k)
  | .arr xs => .ok (if k = "length" then .num xs.length else .undefined)
  | .str s => .ok (if k = "length" then .num s.length else .undefined)
  | _ => .ok .undefined

/-- Element access `v[0]`. -/
def index0 (v : JsVal) : Except JsError JsVal :=
  match v with
  | .undefined => .error (.TypeError "Cannot read properties of undefined (reading 0)")
  | .null => .error (.TypeError "Cannot read properties of null (reading 0)")
  | .arr xs => .ok (xs.headD .undefined)
  | .str s => .ok (match s.toList with
      | [] => .undefined
      | c :: _ => .str (String.singleton c))
  | .obj ps => .ok (getObj ps "0")
  | _ => .ok .undefined

/-- Truthiness (`ToBoolean`). -/
def truthy : JsVal → Bool
  | .undefined => false
  | .null => false
  | .bool b => b
  | .num n => n != 0
  | .str s => s.toList != []
  | _ => true

/-- The comparison `v > 0`. On a number, boolean, `null` or `undefined` operand
it is computed; a string, array or object operand is first converted to a
number by the engine, and `coerced` answers for that conversion. -/
def gtZero (coerced : JsVal → Bool) : JsVal → Bool
  | .num n => decide (0 < n)
  | .bool b => b
  | .undefined => false
  | .null => false
  | v => coerced v

/-- The comparison `v === 0`. -/
def strictEqZero : JsVal → Bool
  | .num n => decide (n = 0)
  | _ => false

mutual
/-- `ToString` of an array element inside `join`: `undefined` and `null` give
the empty string, a nested array its own `join(',')`. A plain object with an own
`toString` property (never callable in parsed JSON) cannot be converted and throws
a `TypeError`; any other plain object gives `[object Object]`. The digits of a
number are the engine's (`Number::toString`), given by `numberToString`. -/
def elemToString (numberToString : Int → String) : JsVal → Except JsError String
  | .undefined => .ok ""
  | .null => .ok ""
  | .bool b => .ok (if b then "true" else "false")
  | .num n => .ok (numberToString n)
  | .str s => .ok s
  | .arr xs => joinWith numberToString "," xs
  | .obj ps =>
    if hasKey ps "toString" then .error (.TypeError "Cannot convert object to primitive value")
    else .ok "[object Object]"
/-- `Array.prototype.join(sep)`: the elements are converted in order, and the first
conversion that throws ends the call. -/
def joinWith (numberToString : Int → String) (sep : String) :
    List JsVal → Except JsError String
  | [] => .ok ""
  | [v] => elemToString numberToString v
  | v :: w :: rest =>
    match elemToString numberToString v with
    | .error e => .error e
    | .ok s =>
      match joinWith numberToString sep (w :: rest) with
      | .error e => .error e
      | .ok t => .ok (s ++ sep ++ t)
end

/-- The characters `String.prototype.trim` strips: WhiteSpace and
LineTerminator code points. -/
def isJsWhiteSpace (c : Char) : Bool :=
  let n := c.toNat
  n == 9 || n == 10 || n == 11 || n == 12 || n == 13 || n == 32 || n == 160
    || n == 5760 || (8192 ≤ n && n ≤ 8202) || n == 8232 || n == 8233
    || n == 8239 || n == 8287 || n == 12288 || n == 65279

/-- `String.prototype.trim` on the characters of a string. -/
def trimChars (cs : List Char) : List Char :=
  (((cs.dropWhile isJsWhiteSpace).reverse).dropWhile isJsWhiteSpace).reverse

/-- `s.split(sep)` for a one-character separator. -/
def splitChars (sep : Char) : List Char → List (List Char)
  | [] => [[]]
  | c :: cs =>
    if c = sep then [] :: splitChars sep cs
    else match splitChars sep cs with
      | [] => [[c]]
      | w :: ws => (c :: w) :: ws

/-- `s.startsWith(p)`. -/
def startsWith (s p : String) : Bool := p.toList.isPrefixOf s.toList

/-! ## Authentication middleware (`src/middleware/authentication.js`) -/

/-- How `authenticationMiddleware` ends: it called `next()` with `req.user` set to
the given object, or it threw without setting `req.user`. -/
inductive AuthOutcome where
  | next (user : Obj) : AuthOutcome
  | threw (e : JsError) : AuthOutcome

/-- The expression `authHeader.split(' ')[1]`. -/
def bearerToken (authHeader : String) : JsVal :=
  match splitChars ' ' authHeader.toList with
  | _ :: t :: _ => .str (String.mk t)
  | _ => .undefined

/-- The `catch (err)` block of `authenticationMiddleware`. -/
def authCatch : JsError → AuthOutcome
  | .library name message _ =>
    if name = "TokenExpiredError" then
      .threw (.library name message (some "Session expired, please login again."))
    else .threw (.UnauthenticatedError "Authentication invalid")
  | _ => .threw (.UnauthenticatedError "Authentication invalid")

/-- The middleware `authenticationMiddleware(req, res, next)`. `verify token` is
`jwt.verify(token, process.env.JWT_SECRET)`: the payload, or the error it throws.
`authHeader` is `req.headers.authorization`, absent when `none`. -/
def authenticationMiddleware (verify : JsVal → Except JsError JsVal)
    (authHeader : Option String) : AuthOutcome :=
  match authHeader with
  | none => .threw (.UnauthenticatedError "Authentication invalid")
  | some h =>
    if h.toList = [] || !startsWith h "Bearer" then
      .threw (.UnauthenticatedError "Authentication invalid")
    else
      match verify (bearerToken h) with
      | .error err => authCatch err
      | .ok payload =>
        match member payload "userId", member payload "username" with
        | .ok userId, .ok username =>
          .next [("userId", userId), ("username", username)]
        | .error err, _ => authCatch err
        | _, .error err => authCatch err

/-! ## Recipe generation (`fetchAiRecipe`, `fetchApiRecipe`) -/

/-- A request handed to `fetch`. `chatCompletion` is the POST to
`https://api.openai.com/v1/chat/completions` with the given user message,
temperature (in tenths) and `max_tokens`; the system message, model name and
the other sampling parameters are constants. `imageSearch` is the GET to the
given URL of the image-search provider. -/
inductive FetchRequest where
  | chatCompletion (userContent : String) (temperatureTenths maxTokens : Nat) : FetchRequest
  | imageSearch (url : String) : FetchRequest

/-- What `await fetch(...)` followed by `await response.json()` gives: the fetch
promise rejects (network error), or it resolves to a response with an HTTP status
whose body either parses to a value or makes `json()` reject. -/
inductive FetchResult where
  | rejected (e : JsError) : FetchResult
  | response (status : Nat) (json : Except JsError JsVal) : FetchResult

/-- Calls that leave the process, in the order they are made. -/
inductive Event where
  | fetch (r : FetchRequest) : Event
  | upload (path : String) : Event
  | unlink (path : String) : Event
  | destroy (publicId : JsVal) : Event
  | findOne (recipeId userId : String) : Event
  | findOneAndDelete (recipeId userId : String) : Event
  | create (data : Obj) : Event
  | save (doc : Obj) : Event

/-- How a handler ends: it sent a response, or its promise rejected with an
error. -/
inductive Outcome where
  | responded (status : Nat) (body : JsVal) : Outcome
  | threw (e : JsError) : Outcome

/-- The environment of the generation handlers: the network (`fetch`), the
builtins `JSON.parse` and `encodeURIComponent`, the helper
`../prompts/generateImagePrompt`, the engine's number conversion behind
`> 0` (see `gtZero`) and its printing of numbers (see `elemToString`). -/
structure Providers where
  fetch : FetchRequest → FetchResult
  numberToString : Int → String
  jsonParse : JsVal → Except JsError JsVal
  generateImagePrompt : JsVal → Except JsError JsVal
  encodeURIComponent : JsVal → Except JsError String
  coercedGtZero : JsVal → Bool

/-- The response of both `catch (err)` blocks: status 500 and a fixed body. -/
def generationFailed : Outcome :=
  .responded 500 (.obj [("error", .str "Failed to generate the recipe.")])

/-- The check `if (!query || query.trim() === '') throw new BadRequestError(...)`;
on a query that passes, the string itself. -/
def checkQuery (query : JsVal) : Except JsError String :=
  if !truthy query then .error (.BadRequestError "Please provide a query.")
  else match query with
    | .str s =>
      if (trimChars s.toList).isEmpty then .error (.BadRequestError "Please provide a query.")
      else .ok s
    | _ => .error (.TypeError "query.trim is not a function")

/-- In `fetchAiRecipe`:
`optionValues.length > 0 ? optionValues.join(', ') : ''`. -/
def optValueAi (env : Providers) (optionValues : JsVal) : Except JsError String :=
  match member optionValues "length" with
  | .error e => .error e
  | .ok len =>
    if gtZero env.coercedGtZero len then
      match optionValues with
      | .arr xs => joinWith env.numberToString ", " xs
      | _ => .error (.TypeError "optionValues.join is not a function")
    else .ok ""

/-- In `fetchApiRecipe`: `optionValues.join(', ')`. -/
def optValueApi (env : Providers) (optionValues : JsVal) : Except JsError String :=
  match optionValues with
  | .undefined => .error (.TypeError "Cannot read properties of undefined (reading join)")
  | .null => .error (.TypeError "Cannot read properties of null (reading join)")
  | .arr xs => joinWith env.numberToString ", " xs
  | _ => .error (.TypeError "optionValues.join is not a function")

/-- The two statements
`const { choices } = await response.json();`
`const data = JSON.parse(choices[0].message.function_call.arguments);`. -/
def parseRecipe (env : Providers) (json : Except JsError JsVal) : Except JsError JsVal :=
  match json with
  | .error e => .error e
  | .ok body =>
    match member body "choices" with
    | .error e => .error e
    | .ok choices =>
      match index0 choices with
      | .error e => .error e
      | .ok c0 =>
        match member c0 "message" with
        | .error e => .error e
        | .ok message =>
          match member message "function_call" with
          | .error e => .error e
          | .ok functionCall =>
            match member functionCall "arguments" with
            | .error e => .error e
            | .ok arguments => env.jsonParse arguments

/-- The image-search request built from the parsed recipe: the prompt of
`generateImagePrompt(data)`, URI-encoded into the query of the endpoint, with
`size=medium`. -/
def imageRequest (env : Providers) (data : JsVal) : Except JsError FetchRequest :=
  match env.generateImagePrompt data with
  | .error e => .error e
  | .ok prompt =>
    match env.encodeURIComponent prompt with
    | .error e => .error e
    | .ok q =>
      .ok (.imageSearch
        ("https://api.bing.microsoft.com/v7.0/images/search?q=" ++ q ++ "&size=medium"))

/-- The expression
`bingImageData.value && bingImageData.value.length > 0
   ? bingImageData.value[0].contentUrl : ''`. -/
def imageUrlOf (env : Providers) (bingImageData : JsVal) : Except JsError JsVal :=
  match member bingImageData "value" with
  | .error e => .error e
  | .ok value =>
    if truthy value then
      match member value "length" with
      | .error e => .error e
      | .ok len =>
        if gtZero env.coercedGtZero len then
          match index0 value with
          | .error e => .error e
          | .ok first => member first "contentUrl"
        else .ok (.str "")
    else .ok (.str "")

/-- The `try { ... } catch (err) { ... }` statement shared, line for line, by
`fetchAiRecipe` and `fetchApiRecipe`, run on the chat request `chat`. Any error
raised inside the `try` ends in the fixed 500 response. -/
def generate (env : Providers) (chat : FetchRequest) : Outcome × List Event :=
  match env.fetch chat with
  | .rejected _ => (generationFailed, [.fetch chat])
  | .response _ json =>
    match parseRecipe env json with
    | .error _ => (generationFailed, [.fetch chat])
    | .ok data =>
      match imageRequest env data with
      | .error _ => (generationFailed, [.fetch chat])
      | .ok img =>
        match env.fetch img with
        | .rejected _ => (generationFailed, [.fetch chat, .fetch img])
        | .response _ (.error _) => (generationFailed, [.fetch chat, .fetch img])
        | .response _ (.ok bingImageData) =>
          match imageUrlOf env bingImageData with
          | .error _ => (generationFailed, [.fetch chat, .fetch img])
          | .ok imageUrl =>
            (.responded 200 (.obj (setObj (spread data) "image" imageUrl)),
              [.fetch chat, .fetch img])

/-- The chat request of `fetchAiRecipe` (temperature 0.4, 750 tokens). -/
def aiChat (query optValue : String) : FetchRequest :=
  .chatCompletion
    ("User receives a recipe based on following ingredient: " ++ query
      ++ ". Preferences or Dietaries:" ++ optValue) 4 750

/-- The chat request of `fetchApiRecipe` (temperature 0.3, 600 tokens). -/
def apiChat (query optValue : String) : FetchRequest :=
  .chatCompletion
    ("User receives a recipe based on following ingredient: " ++ query
      ++ ".Preferences or Dietaries:" ++ optValue) 3 600

/-- The handler `fetchAiRecipe(req, res)` of `recipe_controller.js`, on
`req.body = body`. -/
def fetchAiRecipe (env : Providers) (body : JsVal) : Outcome × List Event :=
  match member body "query", member body "optionValues" with
  | .error e, _ => (.threw e, [])
  | .ok _, .error e => (.threw e, [])
  | .ok query, .ok optionValues =>
    match optValueAi env optionValues with
    | .error e => (.threw e, [])
    | .ok optValue =>
      match checkQuery query with
      | .error e => (.threw e, [])
      | .ok q => generate env (aiChat q optValue)

/-- The handler `fetchApiRecipe(req, res)` of `aiRecipe_controller.js`, on
`req.body = body`. -/
def fetchApiRecipe (env : Providers) (body : JsVal) : Outcome × List Event :=
  match member body "query", member body "optionValues" with
  | .error e, _ => (.threw e, [])
  | .ok _, .error e => (.threw e, [])
  | .ok query, .ok optionValues =>
    match optValueApi env optionValues with
    | .error e => (.threw e, [])
    | .ok optValue =>
      match checkQuery query with
      | .error e => (.threw e, [])
      | .ok q => generate env (apiChat q optValue)

/-! ## Recipe persistence (`recipe_controller.js`) -/

/-- The constant `DEFAULT_IMAGE_URL`. -/
def DEFAULT_IMAGE_URL : String :=
  "https://res.cloudinary.com/djidbbhk1/image/upload/v1693072469/default_image_lv6ume.png"

/-- The constant `DEFAULT_PUBLIC_ID`. -/
def DEFAULT_PUBLIC_ID : String := "default_image_lv6ume"

/-- The recipe collection: its documents, oldest first. -/
abbrev Store := List Obj

/-- The environment of the persistence handlers. `upload` is
`cloudinary.v2.uploader.upload(path)`, `destroy` is
`cloudinary.v2.uploader.destroy(publicId)`, `unlink` is `fs.unlink(path)`; for
`destroy`, `unlink`, a store query and `save`, `some e` means the promise rejects
with `e`. `create` is what `Recipe.create(data)` resolves to (the persisted
document) or rejects with; `transformRecipeData` is the helper of
`../helpers/transformRecipeData`. -/
structure Services where
  upload : String → Except JsError JsVal
  unlink : String → Option JsError
  destroy : JsVal → Option JsError
  queryFault : String → String → Option JsError
  saveFault : Obj → Option JsError
  create : Obj → Except JsError Obj
  transformRecipeData : JsVal → Except JsError Obj

/-- Whether a stored field is the given identifier. -/
def fieldIs (doc : Obj) (k id : String) : Bool :=
  match getObj doc k with
  | .str s => s == id
  | _ => false

/-- The filter `{ _id: recipeId, recipeCreatedBy: userId }`. -/
def ownedBy (recipeId userId : String) (doc : Obj) : Bool :=
  fieldIs doc "_id" recipeId && fieldIs doc "recipeCreatedBy" userId

/-- Modelled from the spec: `Recipe.findOne(filter)` of the model `../models/Recipe`,
which is not among the sources. The record that exists with this id and is owned by
the caller, if any. -/
def findOne (store : Store) (recipeId userId : String) : Option Obj :=
  store.find? (ownedBy recipeId userId)

/-- Modelled from the spec: the effect of `recipe.save()` on the collection, for the
document loaded by `findOne` with this filter: that document is replaced by its
updated state. -/
def replaceDoc (recipeId userId : String) (doc : Obj) : Store → Store
  | [] => []
  | d :: rest =>
    if ownedBy recipeId userId d then doc :: rest
    else d :: replaceDoc recipeId userId doc rest

/-- Modelled from the spec: the effect of `Recipe.findOneAndDelete(filter)` on the
collection: the matching document, if any, is removed. -/
def removeDoc (recipeId userId : String) : Store → Store
  | [] => []
  | d :: rest =>
    if ownedBy recipeId userId d then rest
    else d :: removeDoc recipeId userId rest

/-- The response `res.status(404).json({ message: 'Recipe not found' })`. -/
def notFound : Outcome :=
  .responded 404 (.obj [("message", .str "Recipe not found")])

/-- A `catch (error)` response with an operation message and `error.message`. -/
def failedWith (message : String) (e : JsError) : Outcome :=
  .responded 500 (.obj [("message", .str message), ("error", .str e.message)])

/-- The `catch (error)` response of `createManualRecipe`. -/
def createFailed : Outcome :=
  .responded 500 (.obj [("message", .str "Error uploading image or creating recipe")])

/-- The handler `createAiRecipe`, for the authenticated `req.user.userId`. It has
no `try`: an error is thrown to the wrapper. -/
def createAiRecipe (env : Services) (store : Store) (userId : String) (body : JsVal) :
    Outcome × Store × List Event :=
  match env.transformRecipeData body with
  | .error e => (.threw e, store, [])
  | .ok transformed =>
    let recipeData := setObj transformed "recipeCreatedBy" (.str userId)
    match env.create recipeData with
    | .error e => (.threw e, store, [.create recipeData])
    | .ok newRecipe =>
      (.responded 201
          (.obj [("data", .obj newRecipe), ("message", .str "Recipe created successfully")]),
        store ++ [newRecipe], [.create recipeData])

/-- In `createManualRecipe`: the `imageResponse` after the `if (!req.file)`
statement, with the calls made to obtain it. `file` is `req.file.path`, absent when
no file was uploaded. -/
def manualImageResponse (env : Services) (file : Option String) :
    Except JsError JsVal × List Event :=
  match file with
  | none =>
    (.ok (.obj (setObj (setObj [] "secure_url" (.str DEFAULT_IMAGE_URL))
        "public_id" (.str DEFAULT_PUBLIC_ID))), [])
  | some path =>
    match env.upload path with
    | .error e => (.error e, [.upload path])
    | .ok imageResponse =>
      match env.unlink path with
      | some e => (.error e, [.upload path, .unlink path])
      | none => (.ok imageResponse, [.upload path, .unlink path])

/-- The handler `createManualRecipe`. -/
def createManualRecipe (env : Services) (store : Store) (userId : String) (body : JsVal)
    (file : Option String) : Outcome × Store × List Event :=
  let manualRecipeData := setObj (spread body) "recipeCreatedBy" (.str userId)
  match manualImageResponse env file with
  | (.error _, events) => (createFailed, store, events)
  | (.ok imageResponse, events) =>
    match member imageResponse "secure_url", member imageResponse "public_id" with
    | .ok secureUrl, .ok publicId =>
      let data := setObj (setObj manualRecipeData "recipeImage" secureUrl)
        "recipeImagePublic" publicId
      match env.create data with
      | .error _ => (createFailed, store, events ++ [.create data])
      | .ok recipe =>
        (.responded 201 (.obj [("recipe", .obj recipe)]), store ++ [recipe],
          events ++ [.create data])
    | _, _ => (createFailed, store, events)

/-- The handler `getRecipe`. -/
def getRecipe (env : Services) (store : Store) (userId recipeId : String) :
    Outcome × Store × List Event :=
  match env.queryFault recipeId userId with
  | some e => (failedWith "Error retrieving recipe" e, store, [.findOne recipeId userId])
  | none =>
    match findOne store recipeId userId with
    | none => (notFound, store, [.findOne recipeId userId])
    | some recipe => (.responded 200 (.obj recipe), store, [.findOne recipeId userId])

/-- In `updateRecipe`: the `if (req.file) { ... }` statement. Gives the patch
with the image fields of the upload response, and `oldRecipeImgPublicId`. -/
def updateImage (env : Services) (file : Option String) (recipe newRecipe : Obj) :
    Except JsError (Obj × JsVal) × List Event :=
  match file with
  | none => (.ok (newRecipe, .null), [])
  | some path =>
    match env.upload path with
    | .error e => (.error e, [.upload path])
    | .ok response =>
      match env.unlink path with
      | some e => (.error e, [.upload path, .unlink path])
      | none =>
        match member response "secure_url", member response "public_id" with
        | .ok secureUrl, .ok publicId =>
          (.ok (setObj (setObj newRecipe "recipeImage" secureUrl)
              "recipeImagePublic" publicId, getObj recipe "recipeImagePublic"),
            [.upload path, .unlink path])
        | .error e, _ => (.error e, [.upload path, .unlink path])
        | _, .error e => (.error e, [.upload path, .unlink path])

/-- In `updateRecipe`: the statement
`if (key in newRecipe) { if (newRecipe[key].length === 0) recipe[key] = [];
   else recipe[key] = newRecipe[key]; }`. -/
def replaceList (key : String) (recipe newRecipe : Obj) : Except JsError Obj :=
  if hasKey newRecipe key then
    match member (getObj newRecipe key) "length" with
    | .error e => .error e
    | .ok len =>
      if strictEqZero len then .ok (setObj recipe key (.arr []))
      else .ok (setObj recipe key (getObj newRecipe key))
  else .ok recipe

/-- In `updateRecipe`: from the two list statements to `Object.assign`: the
document as it is handed to `save`. -/
def mergePatch (recipe newRecipe : Obj) : Except JsError Obj :=
  match replaceList "recipeTags" recipe newRecipe with
  | .error e => .error e
  | .ok r1 =>
    match replaceList "recipeSpecialDiets" r1 newRecipe with
    | .error e => .error e
    | .ok r2 =>
      .ok (objectAssign r2
        (deleteObj (deleteObj newRecipe "recipeTags") "recipeSpecialDiets"))

/-- The handler `updateRecipe`. -/
def updateRecipe (env : Services) (store : Store) (userId recipeId : String) (body : JsVal)
    (file : Option String) : Outcome × Store × List Event :=
  let newRecipe := spread body
  let q := [Event.findOne recipeId userId]
  match env.queryFault recipeId userId with
  | some e => (failedWith "Error updating recipe" e, store, q)
  | none =>
    match findOne store recipeId userId with
    | none => (notFound, store, q)
    | some recipe =>
      match updateImage env file recipe newRecipe with
      | (.error e, events) => (failedWith "Error updating recipe" e, store, q ++ events)
      | (.ok (patch, oldRecipeImgPublicId), events) =>
        match mergePatch recipe patch with
        | .error e => (failedWith "Error updating recipe" e, store, q ++ events)
        | .ok updated =>
          match env.saveFault updated with
          | some e =>
            (failedWith "Error updating recipe" e, store, q ++ events ++ [.save updated])
          | none =>
            let store' := replaceDoc recipeId userId updated store
            if truthy oldRecipeImgPublicId then
              match env.destroy oldRecipeImgPublicId with
              | some e =>
                (failedWith "Error updating recipe" e, store',
                  q ++ events ++ [.save updated, .destroy oldRecipeImgPublicId])
              | none =>
                (.responded 200 (.obj updated), store',
                  q ++ events ++ [.save updated, .destroy oldRecipeImgPublicId])
            else (.responded 200 (.obj updated), store', q ++ events ++ [.save updated])

/-- The handler `deleteRecipe`. -/
def deleteRecipe (env : Services) (store : Store) (userId recipeId : String) :
    Outcome × Store × List Event :=
  match env.queryFault recipeId userId with
  | some e =>
    (failedWith "Error deleting recipe" e, store, [.findOneAndDelete recipeId userId])
  | none =>
    match findOne store recipeId userId with
    | none => (notFound, store, [.findOneAndDelete recipeId userId])
    | some _ =>
      (.responded 200 (.obj [("message", .str "Recipe deleted successfully")]),
        removeDoc recipeId userId store, [.findOneAndDelete recipeId userId])

/-- Whether an event is a `destroy` call to the asset store. -/
def Event.isDestroy : Event → Bool
  | .destroy _ => true
  | _ => false

/-! ## Sample data used by the concrete evaluations -/

/-- A token verifier that accepts the token `tok` for the user `u1`, reports `old`
as expired, and rejects every other token. -/
def sampleVerify : JsVal → Except JsError JsVal
  | .str "tok" => .ok (.obj [("userId", .str "u1"), ("username", .str "ann"), ("iat", .num 5)])
  | .str "old" => .error (.library "TokenExpiredError" "jwt expired" none)
  | _ => .error (.library "JsonWebTokenError" "jwt malformed" none)

/-- Services in which every store call, `unlink` and `destroy` resolve, the asset
store refuses every upload, and `Recipe.create` persists the data under the
identifier `r1`. -/
def quietServices : Services where
  upload := fun _ => .error (.library "Error" "unreachable" none)
  unlink := fun _ => none
  destroy := fun _ => none
  queryFault := fun _ _ => none
  saveFault := fun _ => none
  create := fun data => .ok (setObj data "_id" (.str "r1"))
  transformRecipeData := fun body => .ok (spread body)

/-- Services that differ from `quietServices` in that every upload succeeds with
one fixed response of the asset store. -/
def uploadingServices : Services :=
  { quietServices with
    upload := fun _ =>
      .ok (.obj [("secure_url", .str "https://cdn/new.png"), ("public_id", .str "new")]) }

/-- Services that differ from `quietServices` in that every store query rejects, as
the store does for an id it cannot cast. -/
def castFailingServices : Services :=
  { quietServices with
    queryFault := fun _ _ => some (.library "CastError" "Cast to ObjectId failed" none) }

/-- A stored recipe of user `u1` with one tag and the default image pair. -/
def sampleRecipe : Obj :=
  [("_id", .str "r1"), ("recipeName", .str "Soup"), ("recipeTags", .arr [.str "quick"]),
    ("recipeSpecialDiets", .arr [.str "vegan"]), ("recipeImage", .str DEFAULT_IMAGE_URL),
    ("recipeImagePublic", .str DEFAULT_PUBLIC_ID), ("recipeCreatedBy", .str "u1")]

/-- The recipe of the specification's scenario, as parsed from the function-call
arguments. -/
def lemonChicken : JsVal :=
  .obj [("title", .str "Lemon Chicken"), ("ingredients", .arr [.str "chicken", .str "lemon"]),
    ("instructions", .arr [.str "Roast."])]

/-- The text of the function-call arguments that parses to `lemonChicken`. -/
def lemonChickenText : String :=
  "\x7b\"title\":\"Lemon Chicken\",\"ingredients\":[\"chicken\",\"lemon\"],\"instructions\":[\"Roast.\"]\x7d"

/-- A chat-completion body whose first choice carries a function call with the given
arguments. -/
def chatBody (arguments : JsVal) : JsVal :=
  .obj [("choices", .arr [.obj [("message", .obj [("role", .str "assistant"),
    ("function_call", .obj [("name", .str "recipe"), ("arguments", arguments)])])]])]

/-- Providers for the scenario: the language model answers `chat`, the image search
answers `image`, `JSON.parse` knows the one text `lemonChickenText`, and the image
prompt of every recipe is `Lemon Chicken`. -/
def sampleProviders (chat image : FetchResult) : Providers where
  fetch := fun r =>
    match r with
    | .chatCompletion _ _ _ => chat
    | .imageSearch _ => image
  numberToString := fun n => toString n
  jsonParse := fun v =>
    match v with
    | .str t =>
      if t = lemonChickenText then .ok lemonChicken
      else .error (.library "SyntaxError" "Unexpected token" none)
    | _ => .error (.library "SyntaxError" "Unexpected token" none)
  generateImagePrompt := fun _ => .ok (.str "Lemon Chicken")
  encodeURIComponent := fun _ => .ok "Lemon%20Chicken"
  coercedGtZero := fun _ => false

/-- The request body `{ query: "chicken", optionValues: [] }`. -/
def chickenBody : JsVal := .obj [("query", .str "chicken"), ("optionValues", .arr [])]

/-- The image-search request of the scenario. -/
def chickenImageSearch : FetchRequest :=
  .imageSearch "https://api.bing.microsoft.com/v7.0/images/search?q=Lemon%20Chicken&size=medium"

/-- An image-search body with one hit. -/
def oneHit : JsVal := .obj [("value", .arr [.obj [("contentUrl", .str "http://img/1.png")]])]

/-- An image-search body with an empty result list. -/
def noHits : JsVal := .obj [("value", .arr [])]

/-- The JSON error body of a refused image-search request. -/
def accessDenied : JsVal :=
  .obj [("error", .obj [("code", .str "401"), ("message", .str "Access denied")])]

/-! ## Property lists -/

theorem getObj_setObj_same (o : Obj) (k : String) (v : JsVal) :
    getObj (setObj o k v) k = v := by
  induction o with
  | nil => simp [setObj, getObj]
  | cons p rest ih =>
    obtain ⟨k', v'⟩ := p
    by_cases h : k' = k <;> simp [setObj, getObj, h, ih]

theorem getObj_setObj_ne (o : Obj) (k k' : String) (v : JsVal) (h : k ≠ k') :
    getObj (setObj o k v) k' = getObj o k' := by
  induction o with
  | nil => simp [setObj, getObj, h]
  | cons p rest ih =>
    obtain ⟨k₀, v₀⟩ := p
    by_cases h₀ : k₀ = k
    · subst h₀
      simp [setObj, getObj, h]
    · by_cases h₁ : k₀ = k' <;> simp [setObj, getObj, h₀, h₁, ih, Ne.symm h]

theorem hasKey_setObj_same (o : Obj) (k : String) (v : JsVal) :
    hasKey (setObj o k v) k = true := by
  induction o with
  | nil => simp [setObj, hasKey]
  | cons p rest ih =>
    obtain ⟨k', v'⟩ := p
    by_cases h : k' = k <;> simp [setObj, hasKey, h, ih]

theorem hasKey_setObj_ne (o : Obj) (k k' : String) (v : JsVal) (h : k ≠ k') :
    hasKey (setObj o k v) k' = hasKey o k' := by
  induction o with
  | nil => simp [setObj, hasKey, h]
  | cons p rest ih =>
    obtain ⟨k₀, v₀⟩ := p
    by_cases h₀ : k₀ = k
    · subst h₀
      simp [setObj, hasKey, h]
    · by_cases h₁ : k₀ = k' <;> simp [setObj, hasKey, h₀, h₁, ih, Ne.symm h]

theorem hasKey_setObj_of_hasKey (o : Obj) (k k' : String) (v : JsVal)
    (h : hasKey o k' = true) : hasKey (setObj o k v) k' = true := by
  by_cases hk : k = k'
  · subst hk
    exact hasKey_setObj_same o k v
  · rw [hasKey_setObj_ne o k k' v hk]
    exact h

theorem hasKey_deleteObj_same (o : Obj) (k : String) : hasKey (deleteObj o k) k = false := by
  induction o with
  | nil => simp [deleteObj, hasKey]
  | cons p rest ih =>
    obtain ⟨k', v'⟩ := p
    by_cases h : k' = k <;> simp [deleteObj, hasKey, h, ih]

theorem hasKey_deleteObj_of_not (o : Obj) (k k' : String) (h : hasKey o k' = false) :
    hasKey (deleteObj o k) k' = false := by
  induction o with
  | nil => simp [deleteObj, hasKey]
  | cons p rest ih =>
    obtain ⟨k₀, v₀⟩ := p
    by_cases h₁ : k₀ = k'
    · simp [hasKey, h₁] at h
    · have hr : hasKey rest k' = false := by simpa [hasKey, h₁] using h
      by_cases h₀ : k₀ = k <;> simp [deleteObj, hasKey, h₀, h₁, ih hr]

theorem getObj_objectAssign_of_not_hasKey (src target : Obj) (k : String)
    (h : hasKey src k = false) : getObj (objectAssign target src) k = getObj target k := by
  induction src generalizing target with
  | nil => simp [objectAssign]
  | cons p rest ih =>
    obtain ⟨k₀, v₀⟩ := p
    by_cases h₀ : k₀ = k
    · simp [hasKey, h₀] at h
    · have hr : hasKey rest k = false := by simpa [hasKey, h₀] using h
      simp only [objectAssign]
      rw [ih _ hr, getObj_setObj_ne _ _ _ _ h₀]

/-! ## Authentication -/

theorem authentication_absent_header (verify : JsVal → Except JsError JsVal) :
    authenticationMiddleware verify none
      = .threw (.UnauthenticatedError "Authentication invalid") := rfl

theorem authentication_without_bearer (verify : JsVal → Except JsError JsVal) (h : String)
    (hp : startsWith h "Bearer" = false) :
    authenticationMiddleware verify (some h)
      = .threw (.UnauthenticatedError "Authentication invalid") := by
  simp [authenticationMiddleware, hp]

theorem authCatch_expired (message : String) (u : Option String) :
    authCatch (.library "TokenExpiredError" message u)
      = .threw (.library "TokenExpiredError" message
          (some "Session expired, please login again.")) := by
  simp [authCatch]

theorem authCatch_other (e : JsError)
    (h : ∀ message u, e ≠ .library "TokenExpiredError" message u) :
    authCatch e = .threw (.UnauthenticatedError "Authentication invalid") := by
  cases e with
  | library name message u =>
    have hn : name ≠ "TokenExpiredError" := fun hn => h message u (by rw [hn])
    simp [authCatch, hn]
  | _ => rfl

/-- After the header check has passed, the outcome follows the verification of
the token `authHeader.split(' ')[1]`: a verified object payload attaches exactly
`userId` and `username` and calls `next`, and a verification error goes through
the `catch` block. -/
theorem authentication_after_header_check (verify : JsVal → Except JsError JsVal)
    (h : String) (hne : h.toList ≠ []) (hp : startsWith h "Bearer" = true) :
    (∀ ps, verify (bearerToken h) = .ok (.obj ps) →
      authenticationMiddleware verify (some h)
        = .next [("userId", getObj ps "userId"), ("username", getObj ps "username")]) ∧
    (∀ e, verify (bearerToken h) = .error e →
      authenticationMiddleware verify (some h) = authCatch e) := by
  have hne' : h.data ≠ [] := hne
  constructor
  · intro ps hv
    simp [authenticationMiddleware, hne', hp, hv, member]
  · intro e hv
    simp [authenticationMiddleware, hne', hp, hv]

/-- C8: the header check accepts a header that does not begin with `Bearer ` (with
the space). The header `BearerX tok` has no such beginning, yet the middleware
verifies the token after the first space, attaches the user and calls `next`; the
claim requires `UnauthenticatedError('Authentication invalid')` there. -/
theorem authentication_accepts_header_without_space :
    startsWith "BearerX tok" "Bearer " = false ∧
    authenticationMiddleware sampleVerify (some "BearerX tok")
      = .next [("userId", .str "u1"), ("username", .str "ann")] ∧
    authenticationMiddleware sampleVerify (some "BearerX old")
      = .threw (.library "TokenExpiredError" "jwt expired"
          (some "Session expired, please login again.")) :=
  ⟨rfl, rfl, rfl⟩

/-! ## Query validation -/

theorem trimChars_eq_nil_of_all (cs : List Char) (h : ∀ c ∈ cs, isJsWhiteSpace c = true) :
    trimChars cs = [] := by
  have h1 : cs.dropWhile isJsWhiteSpace = [] := by
    rw [List.dropWhile_eq_nil_iff]
    exact h
  simp [trimChars, h1]

/-- A query that is missing, falsy or made of white space only is refused with
`BadRequestError`. -/
theorem checkQuery_blank (query : JsVal)
    (h : query = .undefined ∨ query = .null ∨
      ∃ s, query = .str s ∧ ∀ c ∈ s.toList, isJsWhiteSpace c = true) :
    checkQuery query = .error (.BadRequestError "Please provide a query.") := by
  rcases h with h | h | ⟨s, h, hs⟩
  · subst h; rfl
  · subst h; rfl
  · subst h
    have ht : trimChars s.data = [] := trimChars_eq_nil_of_all _ hs
    by_cases he : s.data = []
    · simp [checkQuery, truthy, he]
    · simp [checkQuery, truthy, he, ht]

/-- With `optionValues` an array (empty or not) whose `join` returns, a blank query
makes both handlers throw `BadRequestError('Please provide a query.')` before any
external call. -/
theorem blank_query_with_array_options (env : Providers) (ps : Obj) (xs : List JsVal)
    (opt : String)
    (ho : getObj ps "optionValues" = .arr xs)
    (hj : joinWith env.numberToString ", " xs = .ok opt)
    (hq : getObj ps "query" = .undefined ∨ getObj ps "query" = .null ∨
      ∃ s, getObj ps "query" = .str s ∧ ∀ c ∈ s.toList, isJsWhiteSpace c = true) :
    fetchAiRecipe env (.obj ps) = (.threw (.BadRequestError "Please provide a query."), []) ∧
    fetchApiRecipe env (.obj ps) = (.threw (.BadRequestError "Please provide a query."), []) := by
  have hc := checkQuery_blank _ hq
  constructor
  · cases xs with
    | nil => simp [fetchAiRecipe, member, ho, optValueAi, gtZero, hc]
    | cons x rest =>
      have : (0 : Int) < (↑rest.length + 1) := by omega
      simp [fetchAiRecipe, member, ho, optValueAi, gtZero, hc, this, hj]
  · simp [fetchApiRecipe, member, ho, optValueApi, hc, hj]

/-- An option that cannot be converted to a string makes `join` throw, in both
handlers, before the query check and before any external call. -/
theorem unconvertible_option_throws (env : Providers) (query : JsVal) :
    fetchAiRecipe env
        (.obj [("query", query), ("optionValues", .arr [.obj [("toString", .num 1)]])])
      = (.threw (.TypeError "Cannot convert object to primitive value"), []) ∧
    fetchApiRecipe env
        (.obj [("query", query), ("optionValues", .arr [.obj [("toString", .num 1)]])])
      = (.threw (.TypeError "Cannot convert object to primitive value"), []) :=
  ⟨rfl, rfl⟩

/-- C1: with `optionValues` absent, the handlers do not reach the query check. On the
body `{ query: "" }` both read a property of `undefined` (`optionValues.length`,
`optionValues.join`) and throw a `TypeError` where the claim requires
`BadRequestError('Please provide a query.')`; no external call is made. -/
theorem blank_query_without_options_throws_typeError (env : Providers) :
    fetchAiRecipe env (.obj [("query", .str "")])
      = (.threw (.TypeError "Cannot read properties of undefined (reading length)"), []) ∧
    fetchApiRecipe env (.obj [("query", .str "")])
      = (.threw (.TypeError "Cannot read properties of undefined (reading join)"), []) :=
  ⟨rfl, rfl⟩

/-! ## Ownership scoping -/

theorem findOne_eq_none (store : Store) (recipeId userId : String)
    (h : ∀ d ∈ store,
      ¬ (fieldIs d "_id" recipeId = true ∧ fieldIs d "recipeCreatedBy" userId = true)) :
    findOne store recipeId userId = none := by
  unfold findOne
  rw [List.find?_eq_none]
  intro d hd
  simpa [ownedBy] using h d hd

/-- C2, as stated, fails: the claim "when no stored record has both this id and the
caller as owner, `getRecipe` responds 404" is false when the store query itself
rejects, as for the id `abc` that the store cannot cast: the `catch` block then
responds 500 with `Error retrieving recipe`. -/
theorem not_owned_store_fault_counterexample :
    ¬ ∀ (env : Services) (store : Store) (userId recipeId : String),
        (∀ d ∈ store,
          ¬ (fieldIs d "_id" recipeId = true ∧ fieldIs d "recipeCreatedBy" userId = true)) →
        (getRecipe env store userId recipeId).1
          = .responded 404 (.obj [("message", .str "Recipe not found")]) := by
  intro hall
  have h := hall castFailingServices [sampleRecipe] "u1" "abc"
    (by
      intro d hd
      rw [List.mem_singleton] at hd
      subst hd
      simp [fieldIs, getObj, sampleRecipe])
  have e : (getRecipe castFailingServices [sampleRecipe] "u1" "abc").1
      = .responded 500 (.obj [("message", .str "Error retrieving recipe"),
          ("error", .str "Cast to ObjectId failed")]) := rfl
  rw [e] at h
  simp at h

/-- C2, amended: when no stored record has both this id and the caller as owner,
`getRecipe`, `updateRecipe` and `deleteRecipe` make the store query and no other call
and leave the store as it was; when the store answers the query each responds 404 with
`{ message: 'Recipe not found' }`, and when the query rejects with `e` each responds 500
with its own message (`Error retrieving recipe`, `Error updating recipe`,
`Error deleting recipe`) and `e.message`. In neither case is the response a success or
a record's data. -/
theorem not_owned_never_succeeds (env : Services) (store : Store) (userId recipeId : String)
    (body : JsVal) (file : Option String)
    (h : ∀ d ∈ store,
      ¬ (fieldIs d "_id" recipeId = true ∧ fieldIs d "recipeCreatedBy" userId = true)) :
    (env.queryFault recipeId userId = none →
      getRecipe env store userId recipeId
        = (.responded 404 (.obj [("message", .str "Recipe not found")]), store,
            [.findOne recipeId userId]) ∧
      updateRecipe env store userId recipeId body file
        = (.responded 404 (.obj [("message", .str "Recipe not found")]), store,
            [.findOne recipeId userId]) ∧
      deleteRecipe env store userId recipeId
        = (.responded 404 (.obj [("message", .str "Recipe not found")]), store,
            [.findOneAndDelete recipeId userId])) ∧
    (∀ e, env.queryFault recipeId userId = some e →
      getRecipe env store userId recipeId
        = (.responded 500 (.obj [("message", .str "Error retrieving recipe"),
            ("error", .str e.message)]), store, [.findOne recipeId userId]) ∧
      updateRecipe env store userId recipeId body file
        = (.responded 500 (.obj [("message", .str "Error updating recipe"),
            ("error", .str e.message)]), store, [.findOne recipeId userId]) ∧
      deleteRecipe env store userId recipeId
        = (.responded 500 (.obj [("message", .str "Error deleting recipe"),
            ("error", .str e.message)]), store, [.findOneAndDelete recipeId userId])) ∧
    ((getRecipe env store userId recipeId).2.1 = store ∧
      (updateRecipe env store userId recipeId body file).2.1 = store ∧
      (deleteRecipe env store userId recipeId).2.1 = store) ∧
    (∀ b, (getRecipe env store userId recipeId).1 ≠ .responded 200 b ∧
      (updateRecipe env store userId recipeId body file).1 ≠ .responded 200 b ∧
      (deleteRecipe env store userId recipeId).1 ≠ .responded 200 b) := by
  have hf := findOne_eq_none store recipeId userId h
  refine ⟨?_, ?_, ?_, ?_⟩
  · intro hq
    refine ⟨?_, ?_, ?_⟩
    · simp [getRecipe, hq, hf, notFound]
    · simp [updateRecipe, hq, hf, notFound]
    · simp [deleteRecipe, hq, hf, notFound]
  · intro e hq
    refine ⟨?_, ?_, ?_⟩
    · simp [getRecipe, hq, failedWith]
    · simp [updateRecipe, hq, failedWith]
    · simp [deleteRecipe, hq, failedWith]
  · cases hq : env.queryFault recipeId userId <;>
      simp [getRecipe, updateRecipe, deleteRecipe, hq, hf]
  · intro b
    cases hq : env.queryFault recipeId userId <;>
      simp [getRecipe, updateRecipe, deleteRecipe, hq, hf, notFound, failedWith]

/-- A store with one record of user `u1`: user `u2` asks for that record, user `u1`
asks for an id that does not exist, and user `u1` asks a store that cannot cast the
id. -/
theorem not_owned_never_succeeds_witness :
    (getRecipe quietServices [sampleRecipe] "u2" "r1"
      = (.responded 404 (.obj [("message", .str "Recipe not found")]), [sampleRecipe],
          [.findOne "r1" "u2"]) ∧
    updateRecipe quietServices [sampleRecipe] "u2" "r1"
        (.obj [("recipeName", .str "Stew")]) (some "tmp/a.png")
      = (.responded 404 (.obj [("message", .str "Recipe not found")]), [sampleRecipe],
          [.findOne "r1" "u2"]) ∧
    deleteRecipe quietServices [sampleRecipe] "u2" "r1"
      = (.responded 404 (.obj [("message", .str "Recipe not found")]), [sampleRecipe],
          [.findOneAndDelete "r1" "u2"])) ∧
    getRecipe quietServices [sampleRecipe] "u1" "r9"
      = (.responded 404 (.obj [("message", .str "Recipe not found")]), [sampleRecipe],
          [.findOne "r9" "u1"]) ∧
    (getRecipe castFailingServices [sampleRecipe] "u1" "abc"
      = (.responded 500 (.obj [("message", .str "Error retrieving recipe"),
          ("error", .str "Cast to ObjectId failed")]), [sampleRecipe], [.findOne "abc" "u1"]) ∧
    updateRecipe castFailingServices [sampleRecipe] "u1" "abc" (.obj []) none
      = (.responded 500 (.obj [("message", .str "Error updating recipe"),
          ("error", .str "Cast to ObjectId failed")]), [sampleRecipe], [.findOne "abc" "u1"]) ∧
    deleteRecipe castFailingServices [sampleRecipe] "u1" "abc"
      = (.responded 500 (.obj [("message", .str "Error deleting recipe"),
          ("error", .str "Cast to ObjectId failed")]), [sampleRecipe],
          [.findOneAndDelete "abc" "u1"])) :=
  ⟨(not_owned_never_succeeds quietServices [sampleRecipe] "u2" "r1"
      (.obj [("recipeName", .str "Stew")]) (some "tmp/a.png")
      (by
        intro d hd
        rw [List.mem_singleton] at hd
        subst hd
        simp [fieldIs, getObj, sampleRecipe])).1 rfl,
    ((not_owned_never_succeeds quietServices [sampleRecipe] "u1" "r9" .null none
      (by
        intro d hd
        rw [List.mem_singleton] at hd
        subst hd
        simp [fieldIs, getObj, sampleRecipe])).1 rfl).1,
    (not_owned_never_succeeds castFailingServices [sampleRecipe] "u1" "abc" (.obj []) none
      (by
        intro d hd
        rw [List.mem_singleton] at hd
        subst hd
        simp [fieldIs, getObj, sampleRecipe])).2.1
      (.library "CastError" "Cast to ObjectId failed" none) rfl⟩

/-! ## Creation -/

/-- C5: `createManualRecipe` without an uploaded file hands exactly one record to
`Recipe.create`, whose `recipeImage` is `DEFAULT_IMAGE_URL` and whose
`recipeImagePublic` is `DEFAULT_PUBLIC_ID` whatever the body holds, and makes no
other call: nothing is uploaded to the asset store. -/
theorem createManual_without_file_uses_default_image (env : Services) (store : Store)
    (userId : String) (body : JsVal) :
    ∃ data : Obj,
      (createManualRecipe env store userId body none).2.2 = [.create data] ∧
      getObj data "recipeImage" = .str DEFAULT_IMAGE_URL ∧
      getObj data "recipeImage" = .str
        "https://res.cloudinary.com/djidbbhk1/image/upload/v1693072469/default_image_lv6ume.png" ∧
      getObj data "recipeImagePublic" = .str DEFAULT_PUBLIC_ID ∧
      getObj data "recipeImagePublic" = .str "default_image_lv6ume" ∧
      ∀ path, Event.upload path ∉ (createManualRecipe env store userId body none).2.2 := by
  refine ⟨setObj (setObj (setObj (spread body) "recipeCreatedBy" (.str userId))
      "recipeImage" (.str DEFAULT_IMAGE_URL)) "recipeImagePublic" (.str DEFAULT_PUBLIC_ID),
    ?_, ?_, ?_, ?_, ?_, ?_⟩
  · cases hc : env.create (setObj (setObj (setObj (spread body) "recipeCreatedBy" (.str userId))
      "recipeImage" (.str DEFAULT_IMAGE_URL)) "recipeImagePublic" (.str DEFAULT_PUBLIC_ID)) <;>
      simp [createManualRecipe, manualImageResponse, member, setObj, getObj, hc]
  · rw [getObj_setObj_ne _ _ _ _ (by decide), getObj_setObj_same]
  · rw [getObj_setObj_ne _ _ _ _ (by decide), getObj_setObj_same]
    rfl
  · rw [getObj_setObj_same]
  · rw [getObj_setObj_same]
    rfl
  · intro path
    cases hc : env.create (setObj (setObj (setObj (spread body) "recipeCreatedBy" (.str userId))
      "recipeImage" (.str DEFAULT_IMAGE_URL)) "recipeImagePublic" (.str DEFAULT_PUBLIC_ID)) <;>
      simp [createManualRecipe, manualImageResponse, member, setObj, getObj, hc]

theorem manualImageResponse_events (env : Services) (file : Option String) (d : Obj) :
    Event.create d ∉ (manualImageResponse env file).2 := by
  cases file with
  | none => simp [manualImageResponse]
  | some path =>
    simp only [manualImageResponse]
    split
    · simp
    · split <;> simp

/-- Both creation handlers hand `Recipe.create` a record whose `recipeCreatedBy` is the
authenticated `userId`, whatever the body carries. -/
theorem created_record_owner (env : Services) (store : Store) (userId : String)
    (body : JsVal) (file : Option String) :
    (∀ data, Event.create data ∈ (createManualRecipe env store userId body file).2.2 →
      getObj data "recipeCreatedBy" = .str userId) ∧
    (∀ data, Event.create data ∈ (createAiRecipe env store userId body).2.2 →
      getObj data "recipeCreatedBy" = .str userId) := by
  constructor
  · intro data hd
    have hev := manualImageResponse_events env file
    unfold createManualRecipe at hd
    dsimp only at hd
    split at hd
    · rename_i events hm
      have h := hev data
      rw [hm] at h
      exact absurd hd h
    · rename_i imageResponse events hm
      have hev' : ∀ d, Event.create d ∉ events := by
        intro d
        have h := hev d
        rw [hm] at h
        exact h
      split at hd
      · split at hd <;>
        · simp [hev'] at hd
          subst hd
          rw [getObj_setObj_ne _ _ _ _ (by decide), getObj_setObj_ne _ _ _ _ (by decide),
            getObj_setObj_same]
      · exact absurd hd (hev' data)
  · intro data hd
    unfold createAiRecipe at hd
    dsimp only at hd
    split at hd
    · simp at hd
    · split at hd <;>
      · simp at hd
        subst hd
        rw [getObj_setObj_same]

/-- C4: `updateRecipe` copies every remaining field of the patch onto the record, the
owner included. The owner `u1` of `sampleRecipe` sends the patch
`{ recipeCreatedBy: "u2" }`: the update succeeds and the stored record now has
`recipeCreatedBy = "u2"`, where the claim requires the owner to stay `u1`. -/
theorem update_overwrites_owner :
    getObj sampleRecipe "recipeCreatedBy" = .str "u1" ∧
    ∃ updated : Obj,
      updateRecipe quietServices [sampleRecipe] "u1" "r1"
          (.obj [("recipeCreatedBy", .str "u2")]) none
        = (.responded 200 (.obj updated), [updated], [.findOne "r1" "u1", .save updated]) ∧
      getObj updated "recipeCreatedBy" = .str "u2" :=
  ⟨rfl, _, rfl, rfl⟩

/-- C9: `updateRecipe` without a file copies a client-supplied `recipeImage` onto the
record and leaves `recipeImagePublic` alone. A record created by `createManualRecipe`
without a file holds the default pair; after the patch `{ recipeImage: "http://x/y.png" }`
it holds that URL together with `DEFAULT_PUBLIC_ID`, a pair that is neither the default
pair nor issued by an upload (no upload was made). -/
theorem update_breaks_image_pair :
    ∃ created updated : Obj,
      createManualRecipe quietServices [] "u1" (.obj [("recipeName", .str "Soup")]) none
        = (.responded 201 (.obj [("recipe", .obj created)]), [created],
            [.create (deleteObj created "_id")]) ∧
      getObj created "recipeImage" = .str DEFAULT_IMAGE_URL ∧
      getObj created "recipeImagePublic" = .str DEFAULT_PUBLIC_ID ∧
      updateRecipe quietServices [created] "u1" "r1"
          (.obj [("recipeImage", .str "http://x/y.png")]) none
        = (.responded 200 (.obj updated), [updated], [.findOne "r1" "u1", .save updated]) ∧
      getObj updated "recipeImage" = .str "http://x/y.png" ∧
      getObj updated "recipeImagePublic" = .str DEFAULT_PUBLIC_ID :=
  ⟨_, _, rfl, rfl, rfl, rfl, rfl, rfl⟩

/-! ## Update: order of the asset-store calls -/

theorem updateImage_without_file (env : Services) (recipe newRecipe : Obj) :
    updateImage env none recipe newRecipe = (.ok (newRecipe, .null), []) := rfl

/-- What a successful `if (req.file)` statement has done. -/
theorem updateImage_ok (env : Services) (path : String) (recipe newRecipe patch : Obj)
    (old : JsVal) (events : List Event)
    (h : updateImage env (some path) recipe newRecipe = (.ok (patch, old), events)) :
    ∃ response secureUrl publicId,
      env.upload path = .ok response ∧ env.unlink path = none ∧
      member response "secure_url" = .ok secureUrl ∧
      member response "public_id" = .ok publicId ∧
      patch = setObj (setObj newRecipe "recipeImage" secureUrl) "recipeImagePublic" publicId ∧
      old = getObj recipe "recipeImagePublic" ∧
      events = [.upload path, .unlink path] := by
  unfold updateImage at h
  dsimp only at h
  split at h
  · simp at h
  · rename_i response hu
    split at h
    · simp at h
    · rename_i hl
      split at h
      · rename_i secureUrl publicId hs hp
        simp only [Prod.mk.injEq, Except.ok.injEq] at h
        obtain ⟨⟨h1, h2⟩, h3⟩ := h
        exact ⟨response, secureUrl, publicId, hu, hl, hs, hp, h1.symm, h2.symm, h3.symm⟩
      · simp at h
      · simp at h

theorem updateImage_error_events (env : Services) (file : Option String)
    (recipe newRecipe : Obj) (e : JsError) (events : List Event)
    (h : updateImage env file recipe newRecipe = (.error e, events)) :
    ∀ ev ∈ events, ev.isDestroy = false := by
  cases file with
  | none => simp [updateImage] at h
  | some path =>
    unfold updateImage at h
    dsimp only at h
    split at h
    · simp only [Prod.mk.injEq] at h
      rw [← h.2]
      simp [Event.isDestroy]
    · split at h
      · simp only [Prod.mk.injEq] at h
        rw [← h.2]
        simp [Event.isDestroy]
      · split at h
        · simp at h
        · simp only [Prod.mk.injEq] at h
          rw [← h.2]
          simp [Event.isDestroy]
        · simp only [Prod.mk.injEq] at h
          rw [← h.2]
          simp [Event.isDestroy]

/-- C10: in every run of `updateRecipe` the trace holds at most one `destroy` call, and
when it holds one, a file was uploaded in this request, the owned record was found,
the upload and the save succeeded, the reference destroyed is the `recipeImagePublic`
the record held before the update, and the calls were made in the order query,
upload, unlink, save, destroy: the destroy comes after the save, which has replaced
the record in the store. -/
theorem destroy_only_after_successful_save (env : Services) (store : Store)
    (userId recipeId : String) (body : JsVal) (file : Option String) :
    ((updateRecipe env store userId recipeId body file).2.2.countP Event.isDestroy ≤ 1) ∧
    ∀ publicId, Event.destroy publicId ∈ (updateRecipe env store userId recipeId body file).2.2 →
      ∃ path recipe response updated,
        file = some path ∧
        findOne store recipeId userId = some recipe ∧
        env.upload path = .ok response ∧
        env.saveFault updated = none ∧
        publicId = getObj recipe "recipeImagePublic" ∧
        (updateRecipe env store userId recipeId body file).2.1
          = replaceDoc recipeId userId updated store ∧
        (updateRecipe env store userId recipeId body file).2.2
          = [.findOne recipeId userId, .upload path, .unlink path, .save updated,
              .destroy publicId] := by
  unfold updateRecipe
  dsimp only
  split
  · simp [Event.isDestroy]
  · split
    · simp [Event.isDestroy]
    · rename_i recipe hf
      split
      · rename_i e events hu
        have hev := updateImage_error_events env file recipe (spread body) e events hu
        constructor
        · simp only [List.countP_append, List.countP_cons, List.countP_nil, Event.isDestroy]
          rw [List.countP_eq_zero.mpr (by simpa using hev)]
          simp
        · intro publicId hmem
          simp only [List.mem_append, List.mem_singleton, reduceCtorEq, false_or] at hmem
          have := hev _ hmem
          simp [Event.isDestroy] at this
      · rename_i patch old events hu
        cases file with
        | none =>
          rw [updateImage_without_file] at hu
          simp only [Prod.mk.injEq, Except.ok.injEq] at hu
          obtain ⟨⟨-, rfl⟩, rfl⟩ := hu
          split
          · simp [Event.isDestroy]
          · split
            · simp [Event.isDestroy]
            · simp [truthy, Event.isDestroy]
        | some path =>
          obtain ⟨response, secureUrl, publicId', hup, -, -, -, -, hold, hev⟩ :=
            updateImage_ok env path recipe (spread body) patch old events hu
          subst hev
          split
          · simp [Event.isDestroy]
          · rename_i updated hm
            split
            · simp [Event.isDestroy]
            · rename_i hs
              split
              · split
                · constructor
                  · simp [Event.isDestroy]
                  · intro publicId hmem
                    simp at hmem
                    subst hmem
                    exact ⟨path, recipe, response, updated, rfl, hf, hup, hs, hold, rfl, rfl⟩
                · constructor
                  · simp [Event.isDestroy]
                  · intro publicId hmem
                    simp at hmem
                    subst hmem
                    exact ⟨path, recipe, response, updated, rfl, hf, hup, hs, hold, rfl, rfl⟩
              · simp [Event.isDestroy]

/-- The owner of `sampleRecipe` uploads a new image: the old reference is destroyed
after the save. -/
theorem destroy_only_after_successful_save_witness :
    ∃ path recipe response updated,
      some "tmp/a.png" = some path ∧
      findOne [sampleRecipe] "r1" "u1" = some recipe ∧
      uploadingServices.upload path = .ok response ∧
      uploadingServices.saveFault updated = none ∧
      JsVal.str DEFAULT_PUBLIC_ID = getObj recipe "recipeImagePublic" ∧
      (updateRecipe uploadingServices [sampleRecipe] "u1" "r1" (.obj []) (some "tmp/a.png")).2.1
        = replaceDoc "r1" "u1" updated [sampleRecipe] ∧
      (updateRecipe uploadingServices [sampleRecipe] "u1" "r1" (.obj []) (some "tmp/a.png")).2.2
        = [.findOne "r1" "u1", .upload path, .unlink path, .save updated,
            .destroy (.str DEFAULT_PUBLIC_ID)] :=
  (destroy_only_after_successful_save uploadingServices [sampleRecipe] "u1" "r1" (.obj [])
    (some "tmp/a.png")).2 (.str DEFAULT_PUBLIC_ID)
    (by simp [updateRecipe, uploadingServices, quietServices, sampleRecipe, findOne,
      ownedBy, fieldIs, getObj, updateImage, member, mergePatch, replaceList, hasKey,
      spread, deleteObj, objectAssign, setObj, truthy, DEFAULT_PUBLIC_ID])

/-! ## Update: tags and special diets -/

/-- What the list statement for `key` has done to the record. -/
theorem replaceList_ok (key : String) (recipe patch r : Obj)
    (h : replaceList key recipe patch = .ok r) :
    (∀ k, key ≠ k → getObj r k = getObj recipe k) ∧
    (hasKey patch key = false → getObj r key = getObj recipe key) ∧
    (hasKey patch key = true →
      ∃ len, member (getObj patch key) "length" = .ok len ∧
        (strictEqZero len = true → getObj r key = .arr []) ∧
        (strictEqZero len = false → getObj r key = getObj patch key)) := by
  unfold replaceList at h
  split at h
  · rename_i hk
    split at h
    · simp at h
    · rename_i len hl
      split at h
      · rename_i hz
        simp only [Except.ok.injEq] at h
        subst h
        refine ⟨fun k hne => getObj_setObj_ne _ _ _ _ hne, fun hk' => ?_, fun _ => ?_⟩
        · rw [hk] at hk'
          exact absurd hk' (by decide)
        · exact ⟨len, hl, fun _ => getObj_setObj_same _ _ _, fun hz' => by
            rw [hz] at hz'
            exact absurd hz' (by decide)⟩
      · rename_i hz
        simp only [Except.ok.injEq] at h
        subst h
        refine ⟨fun k hne => getObj_setObj_ne _ _ _ _ hne, fun hk' => ?_, fun _ => ?_⟩
        · rw [hk] at hk'
          exact absurd hk' (by decide)
        · exact ⟨len, hl, fun hz' => absurd hz' hz, fun _ => getObj_setObj_same _ _ _⟩
  · rename_i hk
    simp only [Except.ok.injEq] at h
    subst h
    refine ⟨fun _ _ => rfl, fun _ => rfl, fun hk' => absurd hk' hk⟩

/-- The replace-or-preserve rule on the document handed to `save`, for the two list
fields. -/
theorem mergePatch_list (recipe patch updated : Obj) (key : String)
    (hkey : key = "recipeTags" ∨ key = "recipeSpecialDiets")
    (h : mergePatch recipe patch = .ok updated) :
    (hasKey patch key = false → getObj updated key = getObj recipe key) ∧
    (hasKey patch key = true →
      ∃ len, member (getObj patch key) "length" = .ok len ∧
        (strictEqZero len = true → getObj updated key = .arr []) ∧
        (strictEqZero len = false → getObj updated key = getObj patch key)) := by
  unfold mergePatch at h
  split at h
  · simp at h
  · rename_i r1 h1
    split at h
    · simp at h
    · rename_i r2 h2
      simp only [Except.ok.injEq] at h
      subst h
      have hdel : hasKey (deleteObj (deleteObj patch "recipeTags") "recipeSpecialDiets") key
          = false := by
        rcases hkey with rfl | rfl
        · exact hasKey_deleteObj_of_not _ _ _ (hasKey_deleteObj_same _ _)
        · exact hasKey_deleteObj_same _ _
      rw [getObj_objectAssign_of_not_hasKey _ _ _ hdel]
      obtain ⟨a1, b1, c1⟩ := replaceList_ok _ _ _ _ h1
      obtain ⟨a2, b2, c2⟩ := replaceList_ok _ _ _ _ h2
      rcases hkey with rfl | rfl
      · rw [a2 "recipeTags" (by decide)]
        exact ⟨b1, c1⟩
      · refine ⟨fun hk => ?_, c2⟩
        rw [b2 hk]
        exact a1 "recipeSpecialDiets" (by decide)

/-- A successful `updateRecipe` has saved the merge of the patch, possibly extended with
the image fields of an upload, into the record that `findOne` returned. -/
theorem updateRecipe_success (env : Services) (store store' : Store)
    (userId recipeId : String) (body : JsVal) (file : Option String) (response : JsVal)
    (events : List Event)
    (h : updateRecipe env store userId recipeId body file
      = (.responded 200 response, store', events)) :
    ∃ recipe patch updated,
      findOne store recipeId userId = some recipe ∧
      (patch = spread body ∨ ∃ secureUrl publicId,
        patch = setObj (setObj (spread body) "recipeImage" secureUrl)
          "recipeImagePublic" publicId) ∧
      mergePatch recipe patch = .ok updated ∧
      response = .obj updated ∧
      store' = replaceDoc recipeId userId updated store := by
  unfold updateRecipe at h
  dsimp only at h
  split at h
  · simp [failedWith] at h
  · split at h
    · simp [notFound] at h
    · rename_i recipe hf
      split at h
      · simp [failedWith] at h
      · rename_i patch old ev hu
        have hp : patch = spread body ∨ ∃ secureUrl publicId,
            patch = setObj (setObj (spread body) "recipeImage" secureUrl)
              "recipeImagePublic" publicId := by
          cases file with
          | none =>
            rw [updateImage_without_file] at hu
            simp only [Prod.mk.injEq, Except.ok.injEq] at hu
            exact Or.inl hu.1.1.symm
          | some path =>
            obtain ⟨_, secureUrl, publicId, -, -, -, -, hpatch, -, -⟩ :=
              updateImage_ok env path recipe (spread body) patch old ev hu
            exact Or.inr ⟨secureUrl, publicId, hpatch⟩
        split at h
        · simp [failedWith] at h
        · rename_i updated hm
          split at h
          · simp [failedWith] at h
          · split at h
            · split at h
              · simp [failedWith] at h
              · simp only [Prod.mk.injEq, Outcome.responded.injEq, true_and] at h
                exact ⟨recipe, patch, updated, hf, hp, hm, h.1.symm, h.2.1.symm⟩
            · simp only [Prod.mk.injEq, Outcome.responded.injEq, true_and] at h
              exact ⟨recipe, patch, updated, hf, hp, hm, h.1.symm, h.2.1.symm⟩

/-- C3, as stated, fails: a patch may contain `recipeTags` and the stored value differ
from the patch value. The claim "after a successful update whose patch contains
`recipeTags`, the stored `recipeTags` equals the patch value" is false for the patch
`{ recipeTags: "" }`, whose value has length 0 and is stored as the empty array. -/
theorem update_tags_equal_patch_counterexample :
    ¬ ∀ (env : Services) (store store' : Store) (userId recipeId : String) (body : JsVal)
        (file : Option String) (updated : Obj) (events : List Event),
        updateRecipe env store userId recipeId body file
          = (.responded 200 (.obj updated), store', events) →
        hasKey (spread body) "recipeTags" = true →
        getObj updated "recipeTags" = getObj (spread body) "recipeTags" := by
  intro hall
  have h := hall quietServices [sampleRecipe] _ "u1" "r1" (.obj [("recipeTags", .str "")])
    none _ _ rfl rfl
  simp [getObj, spread] at h

theorem strictEqZero_eq_true (v : JsVal) : strictEqZero v = true ↔ v = .num 0 := by
  cases v <;> simp [strictEqZero]

/-- C3, amended: after a successful `updateRecipe` on an owned record, for `recipeTags`
and for `recipeSpecialDiets`: a field absent from the patch keeps its stored value; a
patch value that is an array is stored exactly (the empty array for `[]`); a patch
value of length 0 of any kind (the empty array, and also the empty string) is stored
as the empty array; every other patch value is stored exactly. The stored record is the
one in the response, which has replaced the owned record in the store. -/
theorem update_lists_replace_or_preserve (env : Services) (store store' : Store)
    (userId recipeId : String) (body : JsVal) (file : Option String) (updated : Obj)
    (events : List Event) (key : String)
    (hkey : key = "recipeTags" ∨ key = "recipeSpecialDiets")
    (h : updateRecipe env store userId recipeId body file
      = (.responded 200 (.obj updated), store', events)) :
    ∃ recipe,
      findOne store recipeId userId = some recipe ∧
      store' = replaceDoc recipeId userId updated store ∧
      (hasKey (spread body) key = false → getObj updated key = getObj recipe key) ∧
      (∀ xs, hasKey (spread body) key = true → getObj (spread body) key = .arr xs →
        getObj updated key = .arr xs) ∧
      (hasKey (spread body) key = true →
        member (getObj (spread body) key) "length" = .ok (.num 0) →
        getObj updated key = .arr []) ∧
      (hasKey (spread body) key = true →
        member (getObj (spread body) key) "length" ≠ .ok (.num 0) →
        getObj updated key = getObj (spread body) key) := by
  obtain ⟨recipe, patch, updated', hf, hp, hm, hr, hs⟩ :=
    updateRecipe_success env store store' userId recipeId body file _ events h
  simp only [JsVal.obj.injEq] at hr
  subst hr
  have hk1 : "recipeImage" ≠ key := by rcases hkey with rfl | rfl <;> decide
  have hk2 : "recipeImagePublic" ≠ key := by rcases hkey with rfl | rfl <;> decide
  have hhas : hasKey patch key = hasKey (spread body) key := by
    rcases hp with rfl | ⟨u, i, rfl⟩
    · rfl
    · rw [hasKey_setObj_ne _ _ _ _ hk2, hasKey_setObj_ne _ _ _ _ hk1]
  have hget : getObj patch key = getObj (spread body) key := by
    rcases hp with rfl | ⟨u, i, rfl⟩
    · rfl
    · rw [getObj_setObj_ne _ _ _ _ hk2, getObj_setObj_ne _ _ _ _ hk1]
  obtain ⟨habsent, hpresent⟩ := mergePatch_list recipe patch updated key hkey hm
  rw [hhas] at habsent hpresent
  rw [hget] at hpresent
  refine ⟨recipe, hf, hs, habsent, ?_, ?_, ?_⟩
  · intro xs hk hx
    obtain ⟨len, hl, hz, hnz⟩ := hpresent hk
    rw [hx] at hl hnz
    simp only [member, if_true, Except.ok.injEq] at hl
    subst hl
    cases xs with
    | nil => exact hz rfl
    | cons x rest =>
      apply hnz
      simp only [strictEqZero, List.length_cons]
      exact decide_eq_false (by omega)
  · intro hk hl0
    obtain ⟨len, hl, hz, -⟩ := hpresent hk
    rw [hl0] at hl
    simp only [Except.ok.injEq] at hl
    subst hl
    exact hz rfl
  · intro hk hl0
    obtain ⟨len, hl, -, hnz⟩ := hpresent hk
    apply hnz
    cases hz : strictEqZero len with
    | false => rfl
    | true =>
      rw [strictEqZero_eq_true] at hz
      subst hz
      exact absurd hl hl0

/-- The scenario of the specification: the owner of `sampleRecipe`, which carries one
tag, sends the patch `{ recipeTags: [] }` without a file. -/
theorem update_lists_replace_or_preserve_witness :
    ∃ updated : Obj,
      updateRecipe quietServices [sampleRecipe] "u1" "r1" (.obj [("recipeTags", .arr [])]) none
        = (.responded 200 (.obj updated), [updated], [.findOne "r1" "u1", .save updated]) ∧
      getObj updated "recipeTags" = .arr [] ∧
      getObj updated "recipeSpecialDiets" = getObj sampleRecipe "recipeSpecialDiets" ∧
      getObj updated "recipeImage" = getObj sampleRecipe "recipeImage" :=
  ⟨_, rfl,
    (update_lists_replace_or_preserve quietServices [sampleRecipe] _ "u1" "r1"
      (.obj [("recipeTags", .arr [])]) none _ _ "recipeTags" (Or.inl rfl) rfl).choose_spec.2.2.2.1
      [] rfl rfl,
    rfl, rfl⟩

/-! ## Generation: the `try` block -/

/-- A 200 response of the `try` block comes from its last statement only. -/
theorem generate_success (env : Providers) (chat : FetchRequest) (resp : JsVal)
    (tr : List Event) (h : generate env chat = (.responded 200 resp, tr)) :
    ∃ st json data img st2 bing imageUrl,
      env.fetch chat = .response st json ∧ parseRecipe env json = .ok data ∧
      imageRequest env data = .ok img ∧ env.fetch img = .response st2 (.ok bing) ∧
      imageUrlOf env bing = .ok imageUrl ∧
      resp = .obj (setObj (spread data) "image" imageUrl) ∧
      tr = [.fetch chat, .fetch img] := by
  unfold generate at h
  split at h
  · simp [generationFailed] at h
  · rename_i st json hc
    split at h
    · simp [generationFailed] at h
    · rename_i data hp
      split at h
      · simp [generationFailed] at h
      · rename_i img hi
        split at h
        · simp [generationFailed] at h
        · simp [generationFailed] at h
        · rename_i st2 bing hb
          split at h
          · simp [generationFailed] at h
          · rename_i imageUrl hu
            simp only [Prod.mk.injEq, Outcome.responded.injEq, true_and] at h
            exact ⟨st, json, data, img, st2, bing, imageUrl, hc, hp, hi, hb, hu,
              h.1.symm, h.2.symm⟩

/-- The `try` block ends in the fixed failure whenever a fetch rejects, a body is not
JSON, the recipe cannot be parsed or the image request cannot be built, and in any case
responds with status 200 or with that failure. -/
theorem generate_failures (env : Providers) (chat : FetchRequest) :
    ((∃ resp, (generate env chat).1 = .responded 200 resp) ∨
      (generate env chat).1 = generationFailed) ∧
    (∀ e, env.fetch chat = .rejected e → generate env chat = (generationFailed, [.fetch chat])) ∧
    (∀ status json e, env.fetch chat = .response status json → parseRecipe env json = .error e →
      generate env chat = (generationFailed, [.fetch chat])) ∧
    (∀ status json data e, env.fetch chat = .response status json →
      parseRecipe env json = .ok data → imageRequest env data = .error e →
      generate env chat = (generationFailed, [.fetch chat])) ∧
    (∀ status json data img, env.fetch chat = .response status json →
      parseRecipe env json = .ok data → imageRequest env data = .ok img →
      ((∃ e, env.fetch img = .rejected e) ∨
        (∃ status' e, env.fetch img = .response status' (.error e)) ∨
        ∃ status' bing e, env.fetch img = .response status' (.ok bing) ∧
          imageUrlOf env bing = .error e) →
      generate env chat = (generationFailed, [.fetch chat, .fetch img])) := by
  refine ⟨?_, ?_, ?_, ?_, ?_⟩
  · unfold generate
    split
    · exact Or.inr rfl
    · split
      · exact Or.inr rfl
      · split
        · exact Or.inr rfl
        · split
          · exact Or.inr rfl
          · exact Or.inr rfl
          · split
            · exact Or.inr rfl
            · exact Or.inl ⟨_, rfl⟩
  · intro e he
    simp [generate, he]
  · intro status json e hc hp
    simp [generate, hc, hp]
  · intro status json data e hc hp hi
    simp [generate, hc, hp, hi]
  · intro status json data img hc hp hi hf
    rcases hf with ⟨e, he⟩ | ⟨status', e, he⟩ | ⟨status', bing, e, he, hu⟩ <;>
      simp [generate, hc, hp, hi, he, *]

/-- The first call of the `try` block is the chat request. -/
theorem generate_head (env : Providers) (chat : FetchRequest) :
    (generate env chat).2.head? = some (.fetch chat) := by
  unfold generate
  split
  · rfl
  · split
    · rfl
    · split
      · rfl
      · split
        · rfl
        · rfl
        · split <;> rfl

/-- A fetch that was made and rejected, or whose body is not JSON, ends the `try` block
in the fixed failure. -/
theorem generate_fetch_failed (env : Providers) (chat r : FetchRequest)
    (hr : Event.fetch r ∈ (generate env chat).2)
    (hf : (∃ e, env.fetch r = .rejected e) ∨ ∃ st e, env.fetch r = .response st (.error e)) :
    (generate env chat).1 = generationFailed := by
  rcases (generate_failures env chat).1 with ⟨resp, h200⟩ | hfail
  · obtain ⟨st, json, data, img, st2, bing, imageUrl, hc, hp, hi, hb, hu, -, ht⟩ :=
      generate_success env chat resp (generate env chat).2 (Prod.ext h200 rfl)
    rw [ht] at hr
    simp only [List.mem_cons, Event.fetch.injEq, List.mem_singleton, List.mem_nil_iff,
      or_false] at hr
    rcases hr with rfl | rfl
    · rcases hf with ⟨e, he⟩ | ⟨st', e, he⟩
      · rw [he] at hc
        simp at hc
      · rw [he] at hc
        simp only [FetchResult.response.injEq] at hc
        obtain ⟨-, rfl⟩ := hc
        simp [parseRecipe] at hp
    · rcases hf with ⟨e, he⟩ | ⟨st', e, he⟩
      · rw [he] at hb
        simp at hb
      · rw [he] at hb
        simp at hb
  · exact hfail

/-- The image expression on a body whose result list is absent or empty. -/
theorem imageUrlOf_without_results (env : Providers) (bing : JsVal)
    (hv : member bing "value" = .ok .undefined ∨ member bing "value" = .ok (.arr [])) :
    imageUrlOf env bing = .ok (.str "") := by
  unfold imageUrlOf
  rcases hv with hv | hv <;>
  · rw [hv]
    simp [truthy, member, gtZero]

/-- The image expression on a body whose result list has a first element. -/
theorem imageUrlOf_first (env : Providers) (bing first : JsVal) (rest : List JsVal)
    (hv : member bing "value" = .ok (.arr (first :: rest))) :
    imageUrlOf env bing = member first "contentUrl" := by
  have hpos : (0 : Int) < (↑rest.length + 1) := by omega
  unfold imageUrlOf
  rw [hv]
  simp [truthy, member, gtZero, index0, hpos]

/-- The value of the image expression, by the shape of the provider's result list. -/
theorem imageUrlOf_ok (env : Providers) (bing value imageUrl : JsVal)
    (hv : member bing "value" = .ok value) (h : imageUrlOf env bing = .ok imageUrl) :
    (∀ first rest, value = .arr (first :: rest) → member first "contentUrl" = .ok imageUrl) ∧
    (value = .arr [] ∨ value = .undefined → imageUrl = .str "") := by
  constructor
  · intro first rest hval
    subst hval
    rw [imageUrlOf_first env bing first rest hv] at h
    exact h
  · intro hval
    have h' := imageUrlOf_without_results env bing (by
      rcases hval with rfl | rfl
      · exact Or.inr hv
      · exact Or.inl hv)
    rw [h'] at h
    simp only [Except.ok.injEq] at h
    exact h.symm

/-- The `try` block run to its end: both providers answer, the recipe parses, and the
response is the recipe with the image of the expression. -/
theorem generate_completes (env : Providers) (chat img : FetchRequest) (st st2 : Nat)
    (json : Except JsError JsVal) (data bing imageUrl : JsVal)
    (hc : env.fetch chat = .response st json) (hp : parseRecipe env json = .ok data)
    (hi : imageRequest env data = .ok img) (hb : env.fetch img = .response st2 (.ok bing))
    (hu : imageUrlOf env bing = .ok imageUrl) :
    generate env chat
      = (.responded 200 (.obj (setObj (spread data) "image" imageUrl)),
          [.fetch chat, .fetch img]) := by
  simp [generate, hc, hp, hi, hb, hu]

/-! ## Generation: the handlers -/

theorem checkQuery_valid (q : String) (hv : trimChars q.toList ≠ []) :
    checkQuery (.str q) = .ok q := by
  have hv' : trimChars q.data ≠ [] := hv
  have hne : q.data ≠ [] := by
    intro he
    apply hv'
    rw [he]
    rfl
  simp [checkQuery, truthy, hne, hv']

/-- With a valid query and an array of options whose `join` returns `opt`, each handler
is its `try` block run on its chat request. -/
theorem handlers_run_generate (env : Providers) (ps : Obj) (q opt : String)
    (xs : List JsVal)
    (hq : getObj ps "query" = .str q) (hv : trimChars q.toList ≠ [])
    (ho : getObj ps "optionValues" = .arr xs)
    (hj : joinWith env.numberToString ", " xs = .ok opt) :
    fetchAiRecipe env (.obj ps) = generate env (aiChat q opt) ∧
    fetchApiRecipe env (.obj ps) = generate env (apiChat q opt) := by
  have hc := checkQuery_valid q hv
  constructor
  · cases xs with
    | nil =>
      simp only [joinWith, Except.ok.injEq] at hj
      subst hj
      simp [fetchAiRecipe, member, hq, ho, optValueAi, gtZero, hc]
    | cons x rest =>
      have : (0 : Int) < (↑rest.length + 1) := by omega
      simp [fetchAiRecipe, member, hq, ho, optValueAi, gtZero, hc, this, hj]
  · simp [fetchApiRecipe, member, hq, ho, optValueApi, hc, hj]

/-- A handler either throws before any external call or is its `try` block run on a
chat request of its own making. -/
theorem handler_cases (env : Providers) (body : JsVal) (out : Outcome × List Event)
    (mk : String → String → FetchRequest)
    (hout : (out = fetchAiRecipe env body ∧ mk = aiChat) ∨
      (out = fetchApiRecipe env body ∧ mk = apiChat)) :
    (∃ e, out = (.threw e, [])) ∨ ∃ q opt, out = generate env (mk q opt) := by
  rcases hout with ⟨rfl, rfl⟩ | ⟨rfl, rfl⟩
  · unfold fetchAiRecipe
    split
    · exact Or.inl ⟨_, rfl⟩
    · exact Or.inl ⟨_, rfl⟩
    · split
      · exact Or.inl ⟨_, rfl⟩
      · split
        · exact Or.inl ⟨_, rfl⟩
        · exact Or.inr ⟨_, _, rfl⟩
  · unfold fetchApiRecipe
    split
    · exact Or.inl ⟨_, rfl⟩
    · exact Or.inl ⟨_, rfl⟩
    · split
      · exact Or.inl ⟨_, rfl⟩
      · split
        · exact Or.inl ⟨_, rfl⟩
        · exact Or.inr ⟨_, _, rfl⟩

/-- A handler whose first call is the fetch of `chat` is the `try` block run on
`chat`. -/
theorem handler_of_head (env : Providers) (body : JsVal) (out : Outcome × List Event)
    (mk : String → String → FetchRequest)
    (hout : (out = fetchAiRecipe env body ∧ mk = aiChat) ∨
      (out = fetchApiRecipe env body ∧ mk = apiChat))
    (chat : FetchRequest) (hh : out.2.head? = some (.fetch chat)) :
    out = generate env chat := by
  rcases handler_cases env body out mk hout with ⟨e, he⟩ | ⟨q, opt, hg⟩
  · rw [he] at hh
    simp at hh
  · rw [hg, generate_head] at hh
    simp only [Option.some.injEq, Event.fetch.injEq] at hh
    rw [hg, hh]

/-! ## Generation: the response -/

/-- C6: for `fetchAiRecipe` and for `fetchApiRecipe` (`out`, with its chat request
`mk`). First, whenever the handler responds with status 200, both providers were called
once, and the response object holds an `image` field next to every field of the parsed
recipe, each with the recipe's value; `image` is the `contentUrl` of the first result
when the provider's list `value` has at least one element, and the empty string when
the list is empty or absent, whatever `image` the parsed recipe carried. Second, the
handler does respond so: on a valid query and an array of options, when the language
model's body parses to a recipe and the image provider answers with a JSON body, the
response is status 200 with the recipe's fields and that `image`. -/
theorem generation_success_has_image (env : Providers) (body : JsVal)
    (out : Outcome × List Event) (mk : String → String → FetchRequest)
    (hout : (out = fetchAiRecipe env body ∧ mk = aiChat) ∨
      (out = fetchApiRecipe env body ∧ mk = apiChat)) :
    (∀ resp tr, out = (.responded 200 resp, tr) →
      ∃ chat st json data img st2 bing value fields,
        tr = [.fetch chat, .fetch img] ∧
        env.fetch chat = .response st json ∧ parseRecipe env json = .ok data ∧
        env.fetch img = .response st2 (.ok bing) ∧ member bing "value" = .ok value ∧
        resp = .obj fields ∧
        hasKey fields "image" = true ∧
        (∀ k, hasKey (spread data) k = true → hasKey fields k = true) ∧
        (∀ k, k ≠ "image" → getObj fields k = getObj (spread data) k) ∧
        (∀ first rest, value = .arr (first :: rest) →
          member first "contentUrl" = .ok (getObj fields "image")) ∧
        (value = .arr [] ∨ value = .undefined → getObj fields "image" = .str "")) ∧
    (∀ ps q opt xs st st2 json data img bing,
      body = .obj ps → getObj ps "query" = .str q → trimChars q.toList ≠ [] →
      getObj ps "optionValues" = .arr xs → joinWith env.numberToString ", " xs = .ok opt →
      env.fetch (mk q opt) = .response st json → parseRecipe env json = .ok data →
      imageRequest env data = .ok img → env.fetch img = .response st2 (.ok bing) →
      (∀ first rest u, member bing "value" = .ok (.arr (first :: rest)) →
        member first "contentUrl" = .ok u →
        out = (.responded 200 (.obj (setObj (spread data) "image" u)),
          [.fetch (mk q opt), .fetch img])) ∧
      (member bing "value" = .ok (.arr []) ∨ member bing "value" = .ok .undefined →
        out = (.responded 200 (.obj (setObj (spread data) "image" (.str ""))),
          [.fetch (mk q opt), .fetch img]))) := by
  constructor
  · intro resp tr h
    have hg : ∃ chat, generate env chat = (.responded 200 resp, tr) := by
      rcases handler_cases env body out mk hout with ⟨e, he⟩ | ⟨q, opt, hg⟩
      · rw [he] at h
        simp at h
      · exact ⟨_, hg ▸ h⟩
    obtain ⟨chat, hg⟩ := hg
    obtain ⟨st, json, data, img, st2, bing, imageUrl, hc, hp, -, hb, hu, hr, ht⟩ :=
      generate_success env chat resp tr hg
    have hval : ∃ value, member bing "value" = .ok value := by
      unfold imageUrlOf at hu
      split at hu
      · simp at hu
      · rename_i value hv
        exact ⟨value, hv⟩
    obtain ⟨value, hv⟩ := hval
    obtain ⟨hfirst, hempty⟩ := imageUrlOf_ok env bing value imageUrl hv hu
    refine ⟨chat, st, json, data, img, st2, bing, value, _, ht, hc, hp, hb, hv, hr,
      hasKey_setObj_same _ _ _, fun k hk => hasKey_setObj_of_hasKey _ _ _ _ hk,
      fun k hk => getObj_setObj_ne _ _ _ _ (Ne.symm hk), ?_, ?_⟩
    · intro first rest hval
      rw [getObj_setObj_same]
      exact hfirst first rest hval
    · intro hval
      rw [getObj_setObj_same]
      exact hempty hval
  · intro ps q opt xs st st2 json data img bing hbody hq hv ho hj hc hp hi hb
    subst hbody
    obtain ⟨hai, hapi⟩ := handlers_run_generate env ps q opt xs hq hv ho hj
    have hgen : out = generate env (mk q opt) := by
      rcases hout with ⟨h1, h2⟩ | ⟨h1, h2⟩
      · rw [h1, h2, hai]
      · rw [h1, h2, hapi]
    rw [hgen]
    constructor
    · intro first rest u hval hu
      exact generate_completes env _ img st st2 json data bing u hc hp hi hb
        (by rw [imageUrlOf_first env bing first rest hval]; exact hu)
    · intro hval
      exact generate_completes env _ img st st2 json data bing (.str "") hc hp hi hb
        (imageUrlOf_without_results env bing (by
          rcases hval with h | h
          · exact Or.inr h
          · exact Or.inl h))

/-- The scenario of the specification on both handlers (query `chicken`, no options,
the Lemon Chicken recipe, one image hit), then the same request with an empty result
list and with a body that has no result list. -/
theorem generation_success_has_image_witness :
    fetchAiRecipe (sampleProviders (.response 200 (.ok (chatBody (.str lemonChickenText))))
        (.response 200 (.ok oneHit))) chickenBody
      = (.responded 200 (.obj [("title", .str "Lemon Chicken"),
            ("ingredients", .arr [.str "chicken", .str "lemon"]),
            ("instructions", .arr [.str "Roast."]), ("image", .str "http://img/1.png")]),
          [.fetch (aiChat "chicken" ""), .fetch chickenImageSearch]) ∧
    fetchApiRecipe (sampleProviders (.response 200 (.ok (chatBody (.str lemonChickenText))))
        (.response 200 (.ok oneHit))) chickenBody
      = (.responded 200 (.obj [("title", .str "Lemon Chicken"),
            ("ingredients", .arr [.str "chicken", .str "lemon"]),
            ("instructions", .arr [.str "Roast."]), ("image", .str "http://img/1.png")]),
          [.fetch (apiChat "chicken" ""), .fetch chickenImageSearch]) ∧
    fetchApiRecipe (sampleProviders (.response 200 (.ok (chatBody (.str lemonChickenText))))
        (.response 200 (.ok noHits))) chickenBody
      = (.responded 200 (.obj [("title", .str "Lemon Chicken"),
            ("ingredients", .arr [.str "chicken", .str "lemon"]),
            ("instructions", .arr [.str "Roast."]), ("image", .str "")]),
          [.fetch (apiChat "chicken" ""), .fetch chickenImageSearch]) ∧
    fetchAiRecipe (sampleProviders (.response 200 (.ok (chatBody (.str lemonChickenText))))
        (.response 200 (.ok (.obj [])))) chickenBody
      = (.responded 200 (.obj [("title", .str "Lemon Chicken"),
            ("ingredients", .arr [.str "chicken", .str "lemon"]),
            ("instructions", .arr [.str "Roast."]), ("image", .str "")]),
          [.fetch (aiChat "chicken" ""), .fetch chickenImageSearch]) ∧
    ∃ chat st json data img st2 bing value fields,
      [Event.fetch (apiChat "chicken" ""), Event.fetch chickenImageSearch]
        = [.fetch chat, .fetch img] ∧
      (sampleProviders (.response 200 (.ok (chatBody (.str lemonChickenText))))
        (.response 200 (.ok oneHit))).fetch chat = .response st json ∧
      parseRecipe (sampleProviders (.response 200 (.ok (chatBody (.str lemonChickenText))))
        (.response 200 (.ok oneHit))) json = .ok data ∧
      (sampleProviders (.response 200 (.ok (chatBody (.str lemonChickenText))))
        (.response 200 (.ok oneHit))).fetch img = .response st2 (.ok bing) ∧
      member bing "value" = .ok value ∧
      JsVal.obj [("title", .str "Lemon Chicken"),
            ("ingredients", .arr [.str "chicken", .str "lemon"]),
            ("instructions", .arr [.str "Roast."]), ("image", .str "http://img/1.png")]
        = .obj fields ∧
      hasKey fields "image" = true ∧
      (∀ k, hasKey (spread data) k = true → hasKey fields k = true) ∧
      (∀ k, k ≠ "image" → getObj fields k = getObj (spread data) k) ∧
      (∀ first rest, value = .arr (first :: rest) →
        member first "contentUrl" = .ok (getObj fields "image")) ∧
      (value = .arr [] ∨ value = .undefined → getObj fields "image" = .str "") :=
  ⟨((generation_success_has_image
      (sampleProviders (.response 200 (.ok (chatBody (.str lemonChickenText))))
        (.response 200 (.ok oneHit))) chickenBody _ aiChat (Or.inl ⟨rfl, rfl⟩)).2
      _ "chicken" "" [] 200 200 _ lemonChicken chickenImageSearch oneHit
      rfl rfl (by decide) rfl rfl rfl rfl rfl rfl).1 _ _ (.str "http://img/1.png") rfl rfl,
    ((generation_success_has_image
      (sampleProviders (.response 200 (.ok (chatBody (.str lemonChickenText))))
        (.response 200 (.ok oneHit))) chickenBody _ apiChat (Or.inr ⟨rfl, rfl⟩)).2
      _ "chicken" "" [] 200 200 _ lemonChicken chickenImageSearch oneHit
      rfl rfl (by decide) rfl rfl rfl rfl rfl rfl).1 _ _ (.str "http://img/1.png") rfl rfl,
    ((generation_success_has_image
      (sampleProviders (.response 200 (.ok (chatBody (.str lemonChickenText))))
        (.response 200 (.ok noHits))) chickenBody _ apiChat (Or.inr ⟨rfl, rfl⟩)).2
      _ "chicken" "" [] 200 200 _ lemonChicken chickenImageSearch noHits
      rfl rfl (by decide) rfl rfl rfl rfl rfl rfl).2 (Or.inl rfl),
    ((generation_success_has_image
      (sampleProviders (.response 200 (.ok (chatBody (.str lemonChickenText))))
        (.response 200 (.ok (.obj [])))) chickenBody _ aiChat (Or.inl ⟨rfl, rfl⟩)).2
      _ "chicken" "" [] 200 200 _ lemonChicken chickenImageSearch (.obj [])
      rfl rfl (by decide) rfl rfl rfl rfl rfl rfl).2 (Or.inr rfl),
    (generation_success_has_image
      (sampleProviders (.response 200 (.ok (chatBody (.str lemonChickenText))))
        (.response 200 (.ok oneHit))) chickenBody _ apiChat (Or.inr ⟨rfl, rfl⟩)).1 _ _ rfl⟩

/-! ## Generation: failures -/

/-- C7, as stated, fails for the image-search call: the claim "with a valid query, when
the image-search response is not 2xx the handler responds with the fixed 500 failure"
is false. The status of a response is never read: a 401 response whose JSON body has no
result list gives a 200 response with an empty `image`. -/
theorem image_search_non2xx_counterexample :
    ¬ ∀ (env : Providers) (body : JsVal) (q : String) (img : FetchRequest) (status : Nat)
        (json : Except JsError JsVal),
        member body "query" = .ok (.str q) → trimChars q.toList ≠ [] →
        Event.fetch img ∈ (fetchAiRecipe env body).2 →
        env.fetch img = .response status json → ¬ (200 ≤ status ∧ status ≤ 299) →
        (fetchAiRecipe env body).1
          = .responded 500 (.obj [("error", .str "Failed to generate the recipe.")]) := by
  intro hall
  have h := hall
    (sampleProviders (.response 200 (.ok (chatBody (.str lemonChickenText))))
      (.response 401 (.ok accessDenied)))
    chickenBody "chicken" chickenImageSearch 401 (.ok accessDenied) rfl (by decide)
    (List.mem_cons_of_mem _ (List.mem_singleton.mpr rfl)) rfl (by decide)
  have e : (fetchAiRecipe
      (sampleProviders (.response 200 (.ok (chatBody (.str lemonChickenText))))
        (.response 401 (.ok accessDenied))) chickenBody).1
      = .responded 200 (.obj [("title", .str "Lemon Chicken"),
          ("ingredients", .arr [.str "chicken", .str "lemon"]),
          ("instructions", .arr [.str "Roast."]), ("image", .str "")]) := rfl
  rw [e] at h
  simp at h

/-- C7, amended: for `fetchAiRecipe` and for `fetchApiRecipe` (`out`, with its chat
request `mk`), on every request. The handler makes no response other than a 200 or the
fixed `500 { error: 'Failed to generate the recipe.' }`, and throws only before any
external call. On a valid query and an array of options the language-model call is
made. The handler responds with the fixed 500, the same whatever the error and never
with success, when a fetch it made (language model or image search) rejects or has a
body that is not JSON, when `choices[0].message.function_call.arguments` is missing or
does not parse, when the image request cannot be built, and when the image expression
throws on a malformed body. The HTTP status of a response is never read: whatever the
two statuses, when the language-model body parses to a recipe and the image-search body
is JSON without a result list, or with an empty one, the handler responds 200 with
`image` the empty string. -/
theorem generation_failure_collapses (env : Providers) (body : JsVal)
    (out : Outcome × List Event) (mk : String → String → FetchRequest)
    (hout : (out = fetchAiRecipe env body ∧ mk = aiChat) ∨
      (out = fetchApiRecipe env body ∧ mk = apiChat)) :
    (∀ status resp, out.1 = .responded status resp →
      status = 200 ∨
      out.1 = .responded 500 (.obj [("error", .str "Failed to generate the recipe.")])) ∧
    (∀ e, out.1 = .threw e → out.2 = []) ∧
    (∀ ps q opt xs, body = .obj ps → getObj ps "query" = .str q → trimChars q.toList ≠ [] →
      getObj ps "optionValues" = .arr xs → joinWith env.numberToString ", " xs = .ok opt →
      out.2.head? = some (.fetch (mk q opt))) ∧
    (∀ r, Event.fetch r ∈ out.2 →
      ((∃ e, env.fetch r = .rejected e) ∨ ∃ st e, env.fetch r = .response st (.error e)) →
      out.1 = .responded 500 (.obj [("error", .str "Failed to generate the recipe.")])) ∧
    (∀ chat st json e, out.2.head? = some (.fetch chat) →
      env.fetch chat = .response st json → parseRecipe env json = .error e →
      out = (.responded 500 (.obj [("error", .str "Failed to generate the recipe.")]),
        [.fetch chat])) ∧
    (∀ chat st json data e, out.2.head? = some (.fetch chat) →
      env.fetch chat = .response st json → parseRecipe env json = .ok data →
      imageRequest env data = .error e →
      out = (.responded 500 (.obj [("error", .str "Failed to generate the recipe.")]),
        [.fetch chat])) ∧
    (∀ chat st json data img st2 bing e, out.2.head? = some (.fetch chat) →
      env.fetch chat = .response st json → parseRecipe env json = .ok data →
      imageRequest env data = .ok img → env.fetch img = .response st2 (.ok bing) →
      imageUrlOf env bing = .error e →
      out = (.responded 500 (.obj [("error", .str "Failed to generate the recipe.")]),
        [.fetch chat, .fetch img])) ∧
    (∀ chat st json data img st2 bing, out.2.head? = some (.fetch chat) →
      env.fetch chat = .response st json → parseRecipe env json = .ok data →
      imageRequest env data = .ok img → env.fetch img = .response st2 (.ok bing) →
      (member bing "value" = .ok .undefined ∨ member bing "value" = .ok (.arr [])) →
      out = (.responded 200 (.obj (setObj (spread data) "image" (.str ""))),
        [.fetch chat, .fetch img])) := by
  have hcases := handler_cases env body out mk hout
  have hhead := handler_of_head env body out mk hout
  refine ⟨?_, ?_, ?_, ?_, ?_, ?_, ?_, ?_⟩
  · intro status resp h
    rcases hcases with ⟨e, he⟩ | ⟨q, opt, hg⟩
    · rw [he] at h
      simp at h
    · rw [hg] at h ⊢
      rcases (generate_failures env (mk q opt)).1 with ⟨resp', h200⟩ | hfail
      · rw [h200] at h
        simp only [Outcome.responded.injEq] at h
        exact Or.inl h.1.symm
      · exact Or.inr hfail
  · intro e h
    rcases hcases with ⟨e', he⟩ | ⟨q, opt, hg⟩
    · rw [he]
    · rw [hg] at h
      rcases (generate_failures env (mk q opt)).1 with ⟨resp', h200⟩ | hfail
      · rw [h200] at h
        simp at h
      · rw [hfail] at h
        simp [generationFailed] at h
  · intro ps q opt xs hbody hq hv ho hj
    subst hbody
    obtain ⟨hai, hapi⟩ := handlers_run_generate env ps q opt xs hq hv ho hj
    rcases hout with ⟨h1, h2⟩ | ⟨h1, h2⟩
    · rw [h1, h2, hai, generate_head]
    · rw [h1, h2, hapi, generate_head]
  · intro r hr hf
    rcases hcases with ⟨e, he⟩ | ⟨q, opt, hg⟩
    · rw [he] at hr
      simp at hr
    · rw [hg] at hr ⊢
      exact generate_fetch_failed env _ r hr hf
  · intro chat st json e hh hc hp
    rw [hhead chat hh]
    exact (generate_failures env chat).2.2.1 st json e hc hp
  · intro chat st json data e hh hc hp hi
    rw [hhead chat hh]
    exact (generate_failures env chat).2.2.2.1 st json data e hc hp hi
  · intro chat st json data img st2 bing e hh hc hp hi hb hu
    rw [hhead chat hh]
    exact (generate_failures env chat).2.2.2.2 st json data img hc hp hi
      (Or.inr (Or.inr ⟨st2, bing, e, hb, hu⟩))
  · intro chat st json data img st2 bing hh hc hp hi hb hv
    rw [hhead chat hh]
    exact generate_completes env chat img st st2 json data bing (.str "") hc hp hi hb
      (imageUrlOf_without_results env bing hv)

/-- Failures of different kinds, one response, on both handlers: the language model
answers 401 with an error body that has no `choices`; the image search rejects with a
network error. And a status that is not read: the image search answers 401 with a JSON
error body, and the response is a 200 with an empty `image`. -/
theorem generation_failure_collapses_witness :
    fetchAiRecipe (sampleProviders (.response 401 (.ok accessDenied)) (.response 200 (.ok oneHit)))
        chickenBody
      = (.responded 500 (.obj [("error", .str "Failed to generate the recipe.")]),
          [.fetch (aiChat "chicken" "")]) ∧
    (fetchApiRecipe (sampleProviders (.response 200 (.ok (chatBody (.str lemonChickenText))))
        (.rejected (.library "TypeError" "fetch failed" none))) chickenBody).1
      = .responded 500 (.obj [("error", .str "Failed to generate the recipe.")]) ∧
    fetchApiRecipe (sampleProviders (.response 200 (.ok (chatBody (.str lemonChickenText))))
        (.response 401 (.ok accessDenied))) chickenBody
      = (.responded 200 (.obj [("title", .str "Lemon Chicken"),
            ("ingredients", .arr [.str "chicken", .str "lemon"]),
            ("instructions", .arr [.str "Roast."]), ("image", .str "")]),
          [.fetch (apiChat "chicken" ""), .fetch chickenImageSearch]) :=
  ⟨(generation_failure_collapses
      (sampleProviders (.response 401 (.ok accessDenied)) (.response 200 (.ok oneHit)))
      chickenBody _ aiChat (Or.inl ⟨rfl, rfl⟩)).2.2.2.2.1
      (aiChat "chicken" "") 401 (.ok accessDenied) _ rfl rfl rfl,
    (generation_failure_collapses
      (sampleProviders (.response 200 (.ok (chatBody (.str lemonChickenText))))
        (.rejected (.library "TypeError" "fetch failed" none)))
      chickenBody _ apiChat (Or.inr ⟨rfl, rfl⟩)).2.2.2.1
      chickenImageSearch (List.mem_cons_of_mem _ (List.mem_singleton.mpr rfl))
      (Or.inl ⟨_, rfl⟩),
    (generation_failure_collapses
      (sampleProviders (.response 200 (.ok (chatBody (.str lemonChickenText))))
        (.response 401 (.ok accessDenied)))
      chickenBody _ apiChat (Or.inr ⟨rfl, rfl⟩)).2.2.2.2.2.2.2
      (apiChat "chicken" "") 200 (.ok (chatBody (.str lemonChickenText))) lemonChicken
      chickenImageSearch 401 accessDenied rfl rfl rfl rfl rfl (Or.inl rfl)⟩

end RecipeBackend
